import Mathlib

/-!
# Level aggregate, boxes and line stream of the platform game

Shallow embedding of `src/game/level.c`, `src/game/level/boxes.c`,
`src/system/line_stream.c` and the parts of `src/point.c` they use.

Conventions of the embedding.

* C `float` values are rationals and the arithmetic on them is exact; a conversion
  `(float) n` of an integer rounds to the nearest binary32 value (`long_to_float`).
* A pointer to an object of a collaborator that is not part of the modelled
  sources (background, player, platforms, goals, lava, labels, regions, the
  camera, the rigid-body pool) is a handle of type `Nat`; such a handle is
  never `NULL`, a possibly-`NULL` result is an `Option`.  The state behind
  all these handles is one abstract value of type `E`.
* `trace_assert` failures and undefined behaviour abort the run with a
  `Fault`; the world at the moment of the abort is kept.
* The log of a `World` records, in order, the calls the functions of
  `level.c` make into other modules.
-/

namespace See

/-! ## Vectors, rectangles, colours (`point.c`, `rect.h`, `color.h`) -/

/-- Two-dimensional vector `vec_t`. -/
structure Vec where
  x : ℚ
  y : ℚ
deriving DecidableEq

/-- Axis-aligned rectangle `Rect`. -/
structure Rect where
  x : ℚ
  y : ℚ
  w : ℚ
  h : ℚ
deriving DecidableEq

/-- Colour with red, green, blue and alpha channel `Color`. -/
structure Color where
  r : ℚ
  g : ℚ
  b : ℚ
  a : ℚ
deriving DecidableEq

/-- Constructor `vec` of `point.c`. -/
def vec (x y : ℚ) : Vec := { x := x, y := y }

/-- Function `vec_sum` of `point.c`. -/
def vec_sum (v1 v2 : Vec) : Vec := { x := v1.x + v2.x, y := v1.y + v2.y }

/-- Function `vec_add` of `point.c`: in-place addition, returning the new value of `*v1`. -/
def vec_add (v1 v2 : Vec) : Vec := { x := v1.x + v2.x, y := v1.y + v2.y }

/-- Constructor `rect`. -/
def rect (x y w h : ℚ) : Rect := { x := x, y := y, w := w, h := h }

/-- Constructor `rgba`. -/
def rgba (r g b a : ℚ) : Color := { r := r, g := g, b := b, a := a }

/-! ## Faults -/

/-- Ways in which a run is aborted. -/
inductive Fault where
  | assertion_failed
  | null_dereference
  | out_of_bounds
  | pool_exhausted
deriving DecidableEq, Repr

/-! ## Line stream (`system/line_stream.c`) -/

/-- Structure `LineStream`: the unread bytes of the underlying `FILE` and the
buffer capacity. -/
structure LineStream where
  stream : List Char
  capacity : Nat
deriving DecidableEq

/-- Conversion `(int) capacity` of a `size_t` to a 32-bit `int`. -/
def size_t_to_int (n : Nat) : Int :=
  if n % 2 ^ 32 < 2 ^ 31 then Int.ofNat (n % 2 ^ 32) else Int.ofNat (n % 2 ^ 32) - 2 ^ 32

/-- Number of low bits of `m` that do not fit in the 24-bit significand of a
binary32 value: the least `e` with `m / 2 ^ e < 2 ^ 24`, searched among the first
`fuel` values of `e`. -/
def float_excess_bits : Nat → Nat → Nat
  | 0, _ => 0
  | fuel + 1, m => if m < 2 ^ 24 then 0 else float_excess_bits fuel (m / 2) + 1

/-- Conversion `(float) n` of an integer in the range of `long int`: the nearest
binary32 value, a tie going to the even significand. -/
def long_to_float (n : Int) : ℚ :=
  let m := n.natAbs
  let e := float_excess_bits 64 m
  let q := m / 2 ^ e
  let r := m % 2 ^ e
  let q1 := if 2 ^ e < 2 * r ∨ (2 * r = 2 ^ e ∧ q % 2 = 1) then q + 1 else q
  if n < 0 then -((q1 * 2 ^ e : Nat) : ℚ) else ((q1 * 2 ^ e : Nat) : ℚ)

/-- Inner loop of `fgets`: reads at most `n` bytes, stopping after a newline. -/
def fgets_read : Nat → List Char → List Char × List Char
  | 0, s => ([], s)
  | _ + 1, [] => ([], [])
  | n + 1, c :: s =>
    if c = '\n' then ([c], s)
    else ((c :: (fgets_read n s).1), (fgets_read n s).2)

/-- Library function `fgets(buffer, size, stream)`: `none` is `NULL`. -/
def fgets (size : Int) (s : List Char) : Option (List Char) × List Char :=
  if size ≤ 0 then (none, s)
  else if size = 1 then (some [], s)
  else
    match s with
    | [] => (none, [])
    | _ :: _ => (some (fgets_read (size.toNat - 1) s).1, (fgets_read (size.toNat - 1) s).2)

/-- Function `line_stream_next`. -/
def line_stream_next (line_stream : LineStream) : Option (List Char) × LineStream :=
  ((fgets (size_t_to_int line_stream.capacity) line_stream.stream).1,
   { line_stream with
     stream := (fgets (size_t_to_int line_stream.capacity) line_stream.stream).2 })

/-! ## `sscanf(line, "%lu", &n)` -/

/-- Library predicate `isspace` in the C locale. -/
def isspace (c : Char) : Bool :=
  c = ' ' || c = '\t' || c = '\n' || c = Char.ofNat 11 || c = Char.ofNat 12 || c = '\r'

/-- Value of a decimal digit. -/
def digit_value (c : Char) : Nat := c.toNat - '0'.toNat

/-- Accumulates the leading decimal digits of a string. -/
def scan_digits : List Char → Nat → Nat → Nat × Nat
  | [], acc, n => (acc, n)
  | c :: s, acc, n =>
    if c.isDigit then scan_digits s (acc * 10 + digit_value c) (n + 1) else (acc, n)

/-- Return value `EOF` of the `scanf` family. -/
def EOF : Int := -1

/-- Largest `unsigned long`. -/
def ULONG_MAX : Nat := 2 ^ 64 - 1

/-- Conversion of a digit string by `strtoul`: saturating, negated modulo `2 ^ 64`
after a minus sign. -/
def strtoul_value (negative : Bool) (v : Nat) : Nat :=
  if v > ULONG_MAX then ULONG_MAX
  else if negative then (2 ^ 64 - v) % 2 ^ 64 else v

/-- Library call `sscanf(s, "%lu", &n)`: the return value and the value stored
through the pointer, if any.  White space is skipped; end of input before the
conversion is an input failure (`EOF`); a text that is not a number is a
matching failure (return value `0`, nothing stored). -/
def sscanf_lu (s : List Char) : Int × Option Nat :=
  match s.dropWhile isspace with
  | [] => (EOF, none)
  | c :: rest =>
    let negative := c = '-'
    let body := if c = '-' ∨ c = '+' then rest else c :: rest
    let r := scan_digits body 0 0
    if r.2 = 0 then (0, none) else (1, some (strtoul_value negative r.1))

/-! ## Rigid-body pool (`game/level/rigid_bodies.c`, not among the modelled sources) -/

/-- Modelled from the spec: the record of one rigid body (section 3, RigidBody):
position, velocity, hitbox dimensions, colour, grounded flag, and the
accumulated force of section 4.3.  The file `rigid_bodies.c` is missing. -/
structure RigidBody where
  position : Vec
  velocity : Vec
  size : Vec
  color : Color
  grounded : Bool
  force : Vec
deriving DecidableEq

/-- Modelled from the spec: the handle `RigidBodyId` (section 3), a slot index
plus a generation counter.  The header `rigid_bodies.h` is missing. -/
structure RigidBodyId where
  index : Nat
  generation : Nat
deriving DecidableEq

/-- Modelled from the spec: one slot of the pool, free when `body` is `none`. -/
structure Slot where
  generation : Nat
  body : Option RigidBody
deriving DecidableEq

/-- Modelled from the spec: the fixed-capacity pool `RigidBodies` (section 3); the
capacity is the number of slots. -/
structure RigidBodies where
  slots : List Slot
deriving DecidableEq

/-- Hitbox of a body: its position and its dimensions. -/
def RigidBody.hitbox (b : RigidBody) : Rect :=
  rect b.position.x b.position.y b.size.x b.size.y

/-- Modelled from the spec: `create_rigid_bodies(capacity)`, a pool whose slots are all free. -/
def empty_rigid_bodies (capacity : Nat) : RigidBodies :=
  { slots := List.replicate capacity { generation := 0, body := none } }

/-- Index of the lowest free slot, counted from `i`. -/
def first_free : List Slot → Nat → Option Nat
  | [], _ => none
  | s :: rest, i => if s.body.isNone then some i else first_free rest (i + 1)

/-- The live bodies of the pool, in slot order. -/
def RigidBodies.live (rb : RigidBodies) : List RigidBody :=
  rb.slots.filterMap (fun s => s.body)

/-- The body a handle refers to, if the handle is live. -/
def RigidBodies.lookup (rb : RigidBodies) (id : RigidBodyId) : Option RigidBody :=
  match rb.slots.get? id.index with
  | some s => if s.generation = id.generation then s.body else none
  | none => none

/-- Modelled from the spec: `rigid_bodies_add` (section 4.3, add): takes the
lowest-index free slot, bumps its generation and stores a body with the given
rectangle and colour; fails when no slot is free.  The file `rigid_bodies.c` is
missing. -/
def rigid_bodies_add (rb : RigidBodies) (r : Rect) (color : Color) :
    Except Fault (RigidBodyId × RigidBodies) :=
  match first_free rb.slots 0 with
  | none => .error Fault.pool_exhausted
  | some i =>
    match rb.slots.get? i with
    | none => .error Fault.pool_exhausted
    | some s =>
      .ok ({ index := i, generation := s.generation + 1 },
           { slots := rb.slots.set i
               { generation := s.generation + 1,
                 body := some { position := vec r.x r.y, velocity := vec 0 0,
                                size := vec r.w r.h, color := color,
                                grounded := false, force := vec 0 0 } } })

/-- Modelled from the spec: `rigid_bodies_remove` (section 4.3, remove): marks the
slot of a live handle free and leaves the generation as it is; a stale handle is
ignored. -/
def rigid_bodies_remove (rb : RigidBodies) (id : RigidBodyId) : RigidBodies :=
  match rb.slots.get? id.index with
  | some s =>
    if s.generation = id.generation ∧ s.body.isSome then
      { slots := rb.slots.set id.index { generation := s.generation, body := none } }
    else rb
  | none => rb

/-! ## Expressions of the scripting language (`ebisp`, not among the modelled sources) -/

/-- Modelled from the spec: expressions of the embedded language (section 6, a
command is a list whose head is a target name and whose tail holds the
arguments): symbols, numbers, strings and pairs.  The directory `ebisp` is
missing. -/
inductive Expr where
  | symbol (name : String)
  | number (n : Int)
  | string (s : String)
  | cons (car : Expr) (cdr : Expr)
  | void
deriving DecidableEq

/-- The empty list `NIL`. -/
def NIL : Expr := Expr.symbol "nil"

/-- Predicate `nil_p`. -/
def nil_p (e : Expr) : Bool := decide (e = NIL)

/-- Builds a proper list. -/
def Expr.list : List Expr → Expr
  | [] => NIL
  | x :: xs => Expr.cons x (Expr.list xs)

/-- Structure `EvalResult`. -/
structure EvalResult where
  is_error : Bool
  expr : Expr
deriving DecidableEq

/-- Function `eval_success`. -/
def eval_success (e : Expr) : EvalResult := { is_error := false, expr := e }

/-- Function `eval_failure`. -/
def eval_failure (e : Expr) : EvalResult := { is_error := true, expr := e }

/-- Modelled from the spec: the error `UnknownTarget(source, target)` (section 7). -/
def unknown_target (source target : String) : EvalResult :=
  eval_failure (Expr.list [Expr.symbol "unknown-target", Expr.string source, Expr.string target])

/-- Modelled from the spec: the error reported for an argument of the wrong type. -/
def wrong_argument_type (type : String) (obj : Expr) : EvalResult :=
  eval_failure (Expr.list [Expr.symbol "wrong-argument-type", Expr.symbol type, obj])

/-- Modelled from the spec: the error reported for a wrong number of arguments. -/
def wrong_number_of_arguments (count : Nat) : EvalResult :=
  eval_failure (Expr.cons (Expr.symbol "wrong-number-of-arguments") (Expr.number count))

/-- Modelled from the spec: the loop of `match_list`.  It walks the format and the
list together and returns the result and the values captured so far, in order.
The letters are those of the callers in `level.c` and `boxes.c`: `d` an integer,
`s` a string, `q` a symbol (a name), `e` any expression, `*` the rest of the
list.  The directory `ebisp` is missing. -/
def match_list_loop : List Char → Expr → List Expr → Nat → EvalResult × List Expr
  | [], xs, caps, i =>
    if nil_p xs then (eval_success NIL, caps) else (wrong_number_of_arguments i, caps)
  | f :: format, xs, caps, i =>
    if nil_p xs then
      if f = '*' ∧ format = [] then (eval_success NIL, caps ++ [NIL])
      else (wrong_number_of_arguments i, if f = '*' then caps ++ [NIL] else caps)
    else
      match xs with
      | Expr.cons x rest =>
        if f = 'd' then
          match x with
          | Expr.number _ => match_list_loop format rest (caps ++ [x]) (i + 1)
          | _ => (wrong_argument_type "integerp" x, caps)
        else if f = 's' then
          match x with
          | Expr.string _ => match_list_loop format rest (caps ++ [x]) (i + 1)
          | _ => (wrong_argument_type "stringp" x, caps)
        else if f = 'q' then
          match x with
          | Expr.symbol _ => match_list_loop format rest (caps ++ [x]) (i + 1)
          | _ => (wrong_argument_type "symbolp" x, caps)
        else if f = 'e' then
          match_list_loop format rest (caps ++ [x]) (i + 1)
        else if f = '*' then
          match_list_loop format NIL (caps ++ [xs]) (i + 1)
        else
          match_list_loop format rest caps (i + 1)
      | _ => (wrong_argument_type "consp" xs, caps)

/-- Modelled from the spec: `match_list(gc, format, xs, ...)`; the captured values
stand for the output arguments, a value that is not captured leaves its output
argument as it was. -/
def match_list (format : String) (xs : Expr) : EvalResult × List Expr :=
  match_list_loop format.toList xs [] 0

/-- Reads a captured integer, keeping the previous value of the variable otherwise. -/
def capture_int (caps : List Expr) (i : Nat) (previous : Int) : Int :=
  match caps.get? i with
  | some (Expr.number n) => n
  | _ => previous

/-- Reads a captured string or symbol name, keeping the previous value of the
variable otherwise (`none` is `NULL`). -/
def capture_str (caps : List Expr) (i : Nat) (previous : Option String) : Option String :=
  match caps.get? i with
  | some (Expr.string s) => some s
  | some (Expr.symbol s) => some s
  | _ => previous

/-- Reads a captured expression, keeping the previous value of the variable otherwise. -/
def capture_expr (caps : List Expr) (i : Nat) (previous : Expr) : Expr :=
  match caps.get? i with
  | some e => e
  | none => previous

/-! ## Worlds, collaborators and the call log -/

/-- The nine sections of a level file, which are also the nine layers of a frame. -/
inductive Section where
  | background
  | player
  | platforms
  | goals
  | lava
  | back_platforms
  | boxes
  | labels
  | regions
deriving DecidableEq, Repr

/-- Calls of the functions of `level.c` into other modules, with the arguments
and results that matter for the order of events. -/
inductive Call where
  | create_line_stream (file_name : String) (ok : Bool)
  | parse (s : Section) (ok : Bool)
  | create_rigid_bodies (capacity : Nat) (ok : Bool)
  | destroy (s : Section)
  | destroy_rigid_bodies
  | destroy_line_stream
  | destroy_skipped_player (player : Nat)
  | render (s : Section) (ok : Bool)
  | boxes_float_in_lava (lava : Nat)
  | rigid_bodies_apply_omniforce (pool : Nat) (force : Vec)
  | boxes_update (delta_time : ℚ)
  | player_update (player : Nat) (delta_time : ℚ)
  | rigid_bodies_collide (pool : Nat) (platforms : Nat)
  | player_hide_goals (player : Nat) (goals : Nat)
  | player_die_from_lava (player : Nat) (lava : Nat)
  | regions_player_enter (regions : Nat) (player : Nat)
  | regions_player_leave (regions : Nat) (player : Nat)
  | goals_update (goals : Nat) (delta_time : ℚ)
  | lava_update (lava : Nat) (delta_time : ℚ)
  | labels_update (labels : Nat) (delta_time : ℚ)
  | player_jump (player : Nat)
  | player_move_left (player : Nat)
  | player_move_right (player : Nat)
  | player_stop (player : Nat)
  | goals_send (goals : Nat)
  | labels_send (labels : Nat)
  | boxes_send
  | rigid_bodies_apply_force (pool : Nat)
  | rigid_bodies_add (pool : Nat)
  | SDL_SetRelativeMouseMode (enabled : Bool)
deriving DecidableEq

/-- The objects the collaborators can reach: their own state and the contents of
the rigid-body pool of the level. -/
structure Store (E : Type) where
  ext : E
  pool : RigidBodies

/-- State of a run.  `heap` lists the outcomes of the coming allocations (`none`:
the allocation fails; `some g`: it succeeds, and `g` stands for the fresh memory,
its address and its indeterminate contents; past the end of the list every
allocation succeeds).  `rand` lists the coming results of `rand_float`. -/
structure World (E : Type) where
  store : Store E
  log : List Call
  heap : List (Option Nat)
  rand : List ℚ

/-- Result of a run: a value and a world, or an abort with the world it happened in. -/
abbrev Res (E : Type) (α : Type) : Type := Except (Fault × World E) (α × World E)

/-- The collaborators of the modelled sources.  Each function is the effect of
the C function of the same name on the store. -/
structure Env (E : Type) where
  fopen : String → String → Store E → Option (List Char)
  create_background_from_line_stream : LineStream → Store E → Option Nat × LineStream × Store E
  create_player_from_line_stream :
    LineStream → Nat → Nat → Store E → Option Nat × LineStream × Store E
  create_platforms_from_line_stream : LineStream → Store E → Option Nat × LineStream × Store E
  create_goals_from_line_stream : LineStream → Store E → Option Nat × LineStream × Store E
  create_lava_from_line_stream : LineStream → Store E → Option Nat × LineStream × Store E
  create_labels_from_line_stream : LineStream → Store E → Option Nat × LineStream × Store E
  create_regions_from_line_stream :
    LineStream → Nat → Store E → Option Nat × LineStream × Store E
  destroy_background : Nat → Store E → Store E
  destroy_rigid_bodies : Nat → Store E → Store E
  destroy_player : Nat → Store E → Store E
  destroy_platforms : Nat → Store E → Store E
  destroy_goals : Nat → Store E → Store E
  destroy_lava : Nat → Store E → Store E
  destroy_labels : Nat → Store E → Store E
  destroy_regions : Nat → Store E → Store E
  background_render : Nat → Nat → Store E → Int × Store E
  platforms_render : Nat → Nat → Store E → Int × Store E
  player_render : Nat → Nat → Store E → Int × Store E
  rigid_bodies_render : RigidBodyId → Nat → Store E → Int × Store E
  lava_render : Nat → Nat → Store E → Int × Store E
  goals_render : Nat → Nat → Store E → Int × Store E
  labels_render : Nat → Nat → Store E → Int × Store E
  regions_render : Nat → Nat → Store E → Int × Store E
  lava_float_rigid_body : Nat → RigidBodyId → Store E → Store E
  rigid_bodies_apply_omniforce : Vec → Store E → Store E
  rigid_bodies_update : RigidBodyId → ℚ → Store E → Int × Store E
  player_update : Nat → ℚ → Store E → Store E
  rigid_bodies_collide : Nat → Store E → Store E
  player_hide_goals : Nat → Nat → Store E → Store E
  player_die_from_lava : Nat → Nat → Store E → Store E
  regions_player_enter : Nat → Nat → Store E → Store E
  regions_player_leave : Nat → Nat → Store E → Store E
  goals_update : Nat → ℚ → Store E → Store E
  lava_update : Nat → ℚ → Store E → Store E
  labels_update : Nat → ℚ → Store E → Store E
  player_jump : Nat → Store E → Store E
  player_move_left : Nat → Store E → Store E
  player_move_right : Nat → Store E → Store E
  player_stop : Nat → Store E → Store E
  player_hitbox : Nat → Store E → Rect
  SDL_JoystickGetAxis : Nat → Nat → Store E → Int
  SDL_SetRelativeMouseMode : Bool → Store E → Store E
  goals_send : Nat → Expr → Store E → EvalResult × Store E
  labels_send : Nat → Expr → Store E → EvalResult × Store E
  rigid_bodies_apply_force : RigidBodyId → Vec → Store E → Store E
  hexstr : Option String → Color
  body_record : Option (List Char) → Rect × Color
  id_of_size_t : Nat → RigidBodyId
  size_t_of_id : RigidBodyId → Nat

/-- Appends a call to the log. -/
def World.call {E : Type} (w : World E) (c : Call) : World E :=
  { w with log := w.log ++ [c] }

/-- Replaces the store. -/
def World.put {E : Type} (w : World E) (s : Store E) : World E :=
  { w with store := s }

/-- Result of the next allocation (`create_lt`, `nth_alloc`, `string_duplicate`,
`create_rigid_bodies`): `none` is `NULL`. -/
def alloc {E : Type} (w : World E) : Option Nat :=
  match w.heap with
  | [] => some 0
  | r :: _ => r

/-- The world after an allocation. -/
def World.allocated {E : Type} (w : World E) : World E :=
  { w with heap := w.heap.tail }

/-- Library call `rand_float`: the next value of the random source. -/
def rand_float {E : Type} (w : World E) : ℚ × World E :=
  match w.rand with
  | [] => (0, w)
  | r :: rest => (r, { w with rand := rest })

/-! ## Boxes (`game/level/boxes.c`) -/

/-- Constant `BOXES_CAPACITY`. -/
def BOXES_CAPACITY : Nat := 1000

/-- Structure `Boxes`.  The array `body_ids` has `BOXES_CAPACITY` cells; the
cleanup list `lt` of the object holds only its own allocations and is left out. -/
structure Boxes where
  rigid_bodies : Nat
  body_ids : Nat → RigidBodyId
  player : Nat
  count : Nat

/-- The registration list: the first `count` cells of `body_ids`. -/
def Boxes.ids (boxes : Boxes) : List RigidBodyId :=
  (List.range boxes.count).map boxes.body_ids

/-- Modelled from the spec: `rigid_bodies_add_from_line_stream` (section 4.3):
parses the fields of one body from the next line of the stream and adds the body
to the pool.  The file `rigid_bodies.c` is missing. -/
def rigid_bodies_add_from_line_stream {E : Type} (env : Env E) (line_stream : LineStream)
    (w : World E) : Res E (RigidBodyId × LineStream) :=
  match rigid_bodies_add w.store.pool (env.body_record (line_stream_next line_stream).1).1
      (env.body_record (line_stream_next line_stream).1).2 with
  | .error f => .error (f, w)
  | .ok (id, pool) =>
    .ok ((id, (line_stream_next line_stream).2), w.put { w.store with pool := pool })

/-- The loop `for (i = 0; i < boxes->count; ++i) body_ids[i] = ...` of
`create_boxes_from_line_stream`, with `n` iterations left. -/
def create_boxes_loop {E : Type} (env : Env E) :
    Nat → Nat → (Nat → RigidBodyId) → LineStream → World E →
      Res E ((Nat → RigidBodyId) × LineStream)
  | 0, _, body_ids, line_stream, w => .ok ((body_ids, line_stream), w)
  | n + 1, i, body_ids, line_stream, w =>
    match rigid_bodies_add_from_line_stream env line_stream w with
    | .error e => .error e
    | .ok ((id, line_stream1), w1) =>
      if i < BOXES_CAPACITY then
        create_boxes_loop env n (i + 1) (Function.update body_ids i id) line_stream1 w1
      else .error (Fault.out_of_bounds, w1)

/-- Value of `boxes->count` after `sscanf(line, "%lu", &boxes->count)`: the
stored number, or the indeterminate initial contents when nothing was stored. -/
def count_after_sscanf (line : List Char) (garbage : Nat) : Nat :=
  match (sscanf_lu line).2 with
  | some n => n
  | none => garbage % 2 ^ 64

/-- Function `create_boxes_from_line_stream`; `none` is `NULL`.  The field `count`
of the fresh object is indeterminate until `sscanf` stores a value in it. -/
def create_boxes_from_line_stream {E : Type} (env : Env E) (line_stream : LineStream)
    (rigid_bodies : Nat) (player : Nat) (w : World E) : Res E (Option Boxes × LineStream) :=
  match alloc w with
  | none => .ok ((none, line_stream), w.allocated)
  | some _ =>
  let w := w.allocated
  match alloc w with
  | none => .ok ((none, line_stream), w.allocated)
  | some garbage =>
  let w := w.allocated
  match (line_stream_next line_stream).1 with
  | none => .error (Fault.null_dereference, w)
  | some line =>
  let line_stream := (line_stream_next line_stream).2
  if (sscanf_lu line).1 = EOF then .ok ((none, line_stream), w)
  else if count_after_sscanf line garbage < BOXES_CAPACITY then
    match alloc w with
    | none => .ok ((none, line_stream), w.allocated)
    | some garbage_ids =>
    match create_boxes_loop env (count_after_sscanf line garbage) 0
        (fun _ => { index := garbage_ids, generation := garbage_ids })
        line_stream w.allocated with
    | .error e => .error e
    | .ok ((body_ids, line_stream), w) =>
      .ok ((some { rigid_bodies := rigid_bodies, body_ids := body_ids, player := player,
                   count := count_after_sscanf line garbage },
            line_stream), w)
  else .error (Fault.assertion_failed, w)

/-- Reads `boxes->body_ids[i]`; reading outside the array is a fault. -/
def Boxes.read {E : Type} (boxes : Boxes) (i : Nat) (w : World E) : Res E RigidBodyId :=
  if i < BOXES_CAPACITY then .ok (boxes.body_ids i, w) else .error (Fault.out_of_bounds, w)

/-- The loop of `destroy_boxes` over the indices still to visit. -/
def destroy_boxes_loop {E : Type} (boxes : Boxes) : List Nat → World E → Res E Unit
  | [], w => .ok ((), w)
  | i :: rest, w =>
    match boxes.read i w with
    | .error e => .error e
    | .ok (id, w1) =>
      destroy_boxes_loop boxes rest
        (w1.put { w1.store with pool := rigid_bodies_remove w1.store.pool id })

/-- Function `destroy_boxes`. -/
def destroy_boxes {E : Type} (boxes : Boxes) (w : World E) : Res E Unit :=
  destroy_boxes_loop boxes (List.range boxes.count) w

/-- The loop of `boxes_render` over the indices still to visit. -/
def boxes_render_loop {E : Type} (env : Env E) (boxes : Boxes) (camera : Nat) :
    List Nat → World E → Res E Int
  | [], w => .ok (0, w)
  | i :: rest, w =>
    match boxes.read i w with
    | .error e => .error e
    | .ok (id, w1) =>
      if (env.rigid_bodies_render id camera w1.store).1 < 0 then
        .ok (-1, w1.put (env.rigid_bodies_render id camera w1.store).2)
      else
        boxes_render_loop env boxes camera rest
          (w1.put (env.rigid_bodies_render id camera w1.store).2)

/-- Function `boxes_render`. -/
def boxes_render {E : Type} (env : Env E) (boxes : Boxes) (camera : Nat) (w : World E) :
    Res E Int :=
  boxes_render_loop env boxes camera (List.range boxes.count) w

/-- The loop of `boxes_update` over the indices still to visit. -/
def boxes_update_loop {E : Type} (env : Env E) (boxes : Boxes) (delta_time : ℚ) :
    List Nat → World E → Res E Int
  | [], w => .ok (0, w)
  | i :: rest, w =>
    match boxes.read i w with
    | .error e => .error e
    | .ok (id, w1) =>
      if (env.rigid_bodies_update id delta_time w1.store).1 < 0 then
        .ok (-1, w1.put (env.rigid_bodies_update id delta_time w1.store).2)
      else
        boxes_update_loop env boxes delta_time rest
          (w1.put (env.rigid_bodies_update id delta_time w1.store).2)

/-- Function `boxes_update`; `trace_assert(delta_time)` requires a non-zero step. -/
def boxes_update {E : Type} (env : Env E) (boxes : Boxes) (delta_time : ℚ) (w : World E) :
    Res E Int :=
  if delta_time = 0 then .error (Fault.assertion_failed, w)
  else boxes_update_loop env boxes delta_time (List.range boxes.count) w

/-- The loop of `boxes_float_in_lava` over the indices still to visit. -/
def boxes_float_in_lava_loop {E : Type} (env : Env E) (boxes : Boxes) (lava : Nat) :
    List Nat → World E → Res E Unit
  | [], w => .ok ((), w)
  | i :: rest, w =>
    match boxes.read i w with
    | .error e => .error e
    | .ok (id, w1) =>
      boxes_float_in_lava_loop env boxes lava rest
        (w1.put (env.lava_float_rigid_body lava id w1.store))

/-- Function `boxes_float_in_lava`. -/
def boxes_float_in_lava {E : Type} (env : Env E) (boxes : Boxes) (lava : Nat) (w : World E) :
    Res E Unit :=
  boxes_float_in_lava_loop env boxes lava (List.range boxes.count) w

/-- Function `boxes_add_box`. -/
def boxes_add_box {E : Type} (boxes : Boxes) (r : Rect) (color : Color) (w : World E) :
    Res E (Int × Boxes) :=
  if boxes.count < BOXES_CAPACITY then
    match rigid_bodies_add w.store.pool r color with
    | .error f => .error (f, w)
    | .ok (id, pool) =>
      if boxes.count < BOXES_CAPACITY then
        .ok ((0, { boxes with body_ids := Function.update boxes.body_ids boxes.count id,
                              count := boxes.count + 1 }),
             w.put { w.store with pool := pool })
      else .error (Fault.out_of_bounds, w)
  else .error (Fault.assertion_failed, w)

/-- The colour of a new box: a random opaque colour, replaced by the colour
named in the optional argument when there is one.  The result of the second
`match_list` is not inspected: when it fails, `color_hex` is still `NULL`. -/
def box_color {E : Type} (env : Env E) (optional_args : Expr) (w : World E) : Color × World E :=
  let r := rand_float w
  let g := rand_float r.2
  let b := rand_float g.2
  (if !nil_p optional_args then
     env.hexstr (capture_str (match_list "s*" optional_args).2 0 none)
   else rgba r.1 g.1 b.1 1, b.2)

/-- Function `boxes_send`. -/
def boxes_send {E : Type} (env : Env E) (boxes : Boxes) (path : Expr) (w : World E) :
    Res E (EvalResult × Boxes) :=
  if (match_list "e*" path).1.is_error then .ok (((match_list "e*" path).1, boxes), w)
  else
    match capture_expr (match_list "e*" path).2 0 Expr.void with
    | Expr.symbol action =>
      let rest := capture_expr (match_list "e*" path).2 1 Expr.void
      if action = "new" then
        if (match_list "dddd*" rest).1.is_error then
          .ok (((match_list "dddd*" rest).1, boxes), w)
        else
          let caps := (match_list "dddd*" rest).2
          let color := box_color env (capture_expr caps 4 Expr.void) w
          match boxes_add_box boxes
              (rect (long_to_float (capture_int caps 0 0)) (long_to_float (capture_int caps 1 0))
                    (long_to_float (capture_int caps 2 0))
                    (long_to_float (capture_int caps 3 0))) color.1 color.2 with
          | .error e => .error e
          | .ok ((_, boxes1), w1) => .ok ((eval_success NIL, boxes1), w1)
      else if action = "new-here" then
        if (match_list "dd*" rest).1.is_error then
          .ok (((match_list "dd*" rest).1, boxes), w)
        else
          let caps := (match_list "dd*" rest).2
          let color := box_color env (capture_expr caps 2 Expr.void) w
          match boxes_add_box boxes
              (rect (env.player_hitbox boxes.player color.2.store).x
                    (env.player_hitbox boxes.player color.2.store).y
                    (long_to_float (capture_int caps 0 0))
                    (long_to_float (capture_int caps 1 0))) color.1 color.2 with
          | .error e => .error e
          | .ok ((_, boxes1), w1) => .ok ((eval_success NIL, boxes1), w1)
      else .ok ((unknown_target "box" action, boxes), w)
    | target => .ok ((wrong_argument_type "string-or-symbol-p" target, boxes), w)

/-! ## Lifetime lists (`system/lt.h`, not among the modelled sources) -/

/-- A resource registered in a lifetime list `Lt`, with what its destructor needs. -/
inductive Resource where
  | memory
  | line_stream
  | rigid_bodies (pool : Nat)
  | object (s : Section) (handle : Nat)
  | boxes (b : Boxes)

/-- The destructor registered with a resource. -/
def destroy_resource {E : Type} (env : Env E) : Resource → World E → Res E Unit
  | Resource.memory, w => .ok ((), w)
  | Resource.line_stream, w => .ok ((), w.call Call.destroy_line_stream)
  | Resource.rigid_bodies pool, w =>
    .ok ((), (w.call Call.destroy_rigid_bodies).put (env.destroy_rigid_bodies pool w.store))
  | Resource.boxes b, w => destroy_boxes b (w.call (Call.destroy Section.boxes))
  | Resource.object s handle, w =>
    .ok ((), (w.call (Call.destroy s)).put
      (match s with
       | Section.background => env.destroy_background handle w.store
       | Section.player => env.destroy_player handle w.store
       | Section.platforms => env.destroy_platforms handle w.store
       | Section.goals => env.destroy_goals handle w.store
       | Section.lava => env.destroy_lava handle w.store
       | Section.back_platforms => env.destroy_platforms handle w.store
       | Section.boxes => w.store
       | Section.labels => env.destroy_labels handle w.store
       | Section.regions => env.destroy_regions handle w.store))

/-- Modelled from the spec: macro `RETURN_LT(lt, value)` (section 3, lifecycle:
owned resources are released in reverse order of acquisition).  The list holds
the most recently pushed resource first.  The header `system/lt.h` is missing. -/
def RETURN_LT {E : Type} (env : Env E) : List Resource → World E → Res E Unit
  | [], w => .ok ((), w)
  | r :: rest, w =>
    match destroy_resource env r w with
    | .error e => .error e
    | .ok (_, w1) => RETURN_LT env rest w1

/-- Modelled from the spec: macro `RESET_LT(lt, old, new)` (section 4.5, step 5:
the old resource is released and the new one takes its place); the caller
stores the new resource in the field.  The header `system/lt.h` is missing. -/
def RESET_LT {E : Type} (env : Env E) (old : Resource) (w : World E) : Res E Unit :=
  destroy_resource env old w

/-- Function `create_line_stream` of `line_stream.c`; `none` is `NULL`. -/
def create_line_stream {E : Type} (env : Env E) (filename : String) (mode : String)
    (capacity : Nat) (w : World E) : Option LineStream :=
  match alloc w with
  | none => none
  | some _ =>
    match alloc w.allocated with
    | none => none
    | some _ =>
      match env.fopen filename mode w.store with
      | none => none
      | some bytes =>
        match alloc w.allocated.allocated with
        | none => none
        | some _ => some { stream := bytes, capacity := capacity }

/-- The world after `create_line_stream`: the allocations it made. -/
def World.after_create_line_stream {E : Type} (env : Env E) (filename : String)
    (mode : String) (w : World E) : World E :=
  match alloc w with
  | none => w.allocated
  | some _ =>
    match alloc w.allocated with
    | none => w.allocated.allocated
    | some _ =>
      match env.fopen filename mode w.store with
      | none => w.allocated.allocated
      | some _ => w.allocated.allocated.allocated

/-! ## Level (`game/level.c`) -/

/-- Constant `LEVEL_LINE_MAX_LENGTH`. -/
def LEVEL_LINE_MAX_LENGTH : Nat := 512

/-- Constant `LEVEL_GRAVITY`. -/
def LEVEL_GRAVITY : ℚ := 1500

/-- Structure `Level`.  The sub-collections of collaborators are handles, the
boxes are the object itself; the cleanup list `lt` is left out (see `RESET_LT`). -/
structure Level where
  file_name : String
  background : Nat
  rigid_bodies : Nat
  player : Nat
  platforms : Nat
  goals : Nat
  lava : Nat
  back_platforms : Nat
  boxes : Boxes
  labels : Nat
  regions : Nat
  flying_mode : Bool
  flying_camera_position : Vec
  flying_camera_scale : ℚ

/-- The exit `RETURN_LT(lt, NULL)` of `create_level_from_file`. -/
def return_null {E : Type} (env : Env E) (lt : List Resource) (w : World E) :
    Res E (Option Level) :=
  match RETURN_LT env lt w with
  | .error e => .error e
  | .ok (_, w1) => .ok (none, w1)

/-- Function `create_level_from_file`; `none` is `NULL`.  The local `lt` lists the
resources pushed so far, the latest first.  The pool made by
`create_rigid_bodies(1024)` is `empty_rigid_bodies 1024`. -/
def create_level_from_file {E : Type} (env : Env E) (file_name : String) (broadcast : Nat)
    (w : World E) : Res E (Option Level) :=
  match alloc w with
  | none => .ok (none, w.allocated)
  | some _ =>
  let w := w.allocated
  match alloc w with
  | none => return_null env [] w.allocated
  | some _ =>
  let w := w.allocated
  let lt := [Resource.memory]
  match alloc w with
  | none => return_null env lt w.allocated
  | some _ =>
  let w := w.allocated
  let lt := Resource.memory :: lt
  match create_line_stream env file_name "r" LEVEL_LINE_MAX_LENGTH w with
  | none =>
    return_null env lt
      ((w.after_create_line_stream env file_name "r").call
        (Call.create_line_stream file_name false))
  | some level_stream =>
  let w := (w.after_create_line_stream env file_name "r").call
    (Call.create_line_stream file_name true)
  let lt := Resource.line_stream :: lt
  match env.create_background_from_line_stream level_stream w.store with
  | (none, _, st) => return_null env lt ((w.put st).call (Call.parse Section.background false))
  | (some background, level_stream, st) =>
  let w := (w.put st).call (Call.parse Section.background true)
  let lt := Resource.object Section.background background :: lt
  match alloc w with
  | none => return_null env lt (w.allocated.call (Call.create_rigid_bodies 1024 false))
  | some rigid_bodies =>
  let w := (w.allocated.put { ext := w.store.ext, pool := empty_rigid_bodies 1024 }).call
    (Call.create_rigid_bodies 1024 true)
  let lt := Resource.rigid_bodies rigid_bodies :: lt
  match env.create_player_from_line_stream level_stream rigid_bodies broadcast w.store with
  | (none, _, st) => return_null env lt ((w.put st).call (Call.parse Section.player false))
  | (some player, level_stream, st) =>
  let w := (w.put st).call (Call.parse Section.player true)
  let lt := Resource.object Section.player player :: lt
  match env.create_platforms_from_line_stream level_stream w.store with
  | (none, _, st) => return_null env lt ((w.put st).call (Call.parse Section.platforms false))
  | (some platforms, level_stream, st) =>
  let w := (w.put st).call (Call.parse Section.platforms true)
  let lt := Resource.object Section.platforms platforms :: lt
  match env.create_goals_from_line_stream level_stream w.store with
  | (none, _, st) => return_null env lt ((w.put st).call (Call.parse Section.goals false))
  | (some goals, level_stream, st) =>
  let w := (w.put st).call (Call.parse Section.goals true)
  let lt := Resource.object Section.goals goals :: lt
  match env.create_lava_from_line_stream level_stream w.store with
  | (none, _, st) => return_null env lt ((w.put st).call (Call.parse Section.lava false))
  | (some lava, level_stream, st) =>
  let w := (w.put st).call (Call.parse Section.lava true)
  let lt := Resource.object Section.lava lava :: lt
  match env.create_platforms_from_line_stream level_stream w.store with
  | (none, _, st) =>
    return_null env lt ((w.put st).call (Call.parse Section.back_platforms false))
  | (some back_platforms, level_stream, st) =>
  let w := (w.put st).call (Call.parse Section.back_platforms true)
  let lt := Resource.object Section.back_platforms back_platforms :: lt
  match create_boxes_from_line_stream env level_stream rigid_bodies player w with
  | .error e => .error e
  | .ok ((none, _), w) => return_null env lt (w.call (Call.parse Section.boxes false))
  | .ok ((some boxes, level_stream), w) =>
  let w := w.call (Call.parse Section.boxes true)
  let lt := Resource.boxes boxes :: lt
  match env.create_labels_from_line_stream level_stream w.store with
  | (none, _, st) => return_null env lt ((w.put st).call (Call.parse Section.labels false))
  | (some labels, level_stream, st) =>
  let w := (w.put st).call (Call.parse Section.labels true)
  let lt := Resource.object Section.labels labels :: lt
  match env.create_regions_from_line_stream level_stream broadcast w.store with
  | (none, _, st) => return_null env lt ((w.put st).call (Call.parse Section.regions false))
  | (some regions, _, st) =>
    let w := (w.put st).call (Call.parse Section.regions true)
    .ok (some { file_name := file_name, background := background,
                rigid_bodies := rigid_bodies, player := player, platforms := platforms,
                goals := goals, lava := lava, back_platforms := back_platforms,
                boxes := boxes, labels := labels, regions := regions,
                flying_mode := false, flying_camera_position := vec 0 0,
                flying_camera_scale := 1 },
         w.call Call.destroy_line_stream)

/-- The exit `RETURN_LT(lt, value)` of the functions that return an `int`. -/
def return_int {E : Type} (env : Env E) (lt : List Resource) (value : Int) (level : Level)
    (w : World E) : Res E (Int × Level) :=
  match RETURN_LT env lt w with
  | .error e => .error e
  | .ok (_, w1) => .ok ((value, level), w1)

/-- The step `level->field = RESET_LT(level->lt, level->field, fresh)` of
`level_reload_preserve_player`: releases the old resource; the caller stores the
fresh one. -/
def reset_field {E : Type} (env : Env E) (old : Resource) (w : World E)
    (k : World E → Res E (Int × Level)) : Res E (Int × Level) :=
  match RESET_LT env old w with
  | .error e => .error e
  | .ok (_, w1) => k w1

/-- Function `level_reload_preserve_player`: the return value and the level after
the call. -/
def level_reload_preserve_player {E : Type} (env : Env E) (level : Level) (broadcast : Nat)
    (w : World E) : Res E (Int × Level) :=
  match alloc w with
  | none => .ok ((-1, level), w.allocated)
  | some _ =>
  let w := w.allocated
  match create_line_stream env level.file_name "r" LEVEL_LINE_MAX_LENGTH w with
  | none =>
    return_int env [] (-1) level
      ((w.after_create_line_stream env level.file_name "r").call
        (Call.create_line_stream level.file_name false))
  | some level_stream =>
  let w := (w.after_create_line_stream env level.file_name "r").call
    (Call.create_line_stream level.file_name true)
  let lt := [Resource.line_stream]
  match env.create_background_from_line_stream level_stream w.store with
  | (none, _, st) =>
    return_int env lt (-1) level ((w.put st).call (Call.parse Section.background false))
  | (some background, level_stream, st) =>
  reset_field env (Resource.object Section.background level.background)
    ((w.put st).call (Call.parse Section.background true)) fun w =>
  let level := { level with background := background }
  match env.create_player_from_line_stream level_stream level.rigid_bodies broadcast
      w.store with
  | (none, _, st) =>
    return_int env lt (-1) level ((w.put st).call (Call.parse Section.player false))
  | (some skipped_player, level_stream, st) =>
  let w := (w.put st).call (Call.parse Section.player true)
  let w := (w.call (Call.destroy_skipped_player skipped_player)).put
    (env.destroy_player skipped_player w.store)
  match env.create_platforms_from_line_stream level_stream w.store with
  | (none, _, st) =>
    return_int env lt (-1) level ((w.put st).call (Call.parse Section.platforms false))
  | (some platforms, level_stream, st) =>
  reset_field env (Resource.object Section.platforms level.platforms)
    ((w.put st).call (Call.parse Section.platforms true)) fun w =>
  let level := { level with platforms := platforms }
  match env.create_goals_from_line_stream level_stream w.store with
  | (none, _, st) =>
    return_int env lt (-1) level ((w.put st).call (Call.parse Section.goals false))
  | (some goals, level_stream, st) =>
  reset_field env (Resource.object Section.goals level.goals)
    ((w.put st).call (Call.parse Section.goals true)) fun w =>
  let level := { level with goals := goals }
  match env.create_lava_from_line_stream level_stream w.store with
  | (none, _, st) =>
    return_int env lt (-1) level ((w.put st).call (Call.parse Section.lava false))
  | (some lava, level_stream, st) =>
  reset_field env (Resource.object Section.lava level.lava)
    ((w.put st).call (Call.parse Section.lava true)) fun w =>
  let level := { level with lava := lava }
  match env.create_platforms_from_line_stream level_stream w.store with
  | (none, _, st) =>
    return_int env lt (-1) level ((w.put st).call (Call.parse Section.back_platforms false))
  | (some back_platforms, level_stream, st) =>
  reset_field env (Resource.object Section.back_platforms level.back_platforms)
    ((w.put st).call (Call.parse Section.back_platforms true)) fun w =>
  let level := { level with back_platforms := back_platforms }
  match create_boxes_from_line_stream env level_stream level.rigid_bodies level.player w with
  | .error e => .error e
  | .ok ((none, _), w) =>
    return_int env lt (-1) level (w.call (Call.parse Section.boxes false))
  | .ok ((some boxes, level_stream), w) =>
  reset_field env (Resource.boxes level.boxes) (w.call (Call.parse Section.boxes true)) fun w =>
  let level := { level with boxes := boxes }
  match env.create_labels_from_line_stream level_stream w.store with
  | (none, _, st) =>
    return_int env lt (-1) level ((w.put st).call (Call.parse Section.labels false))
  | (some labels, level_stream, st) =>
  reset_field env (Resource.object Section.labels level.labels)
    ((w.put st).call (Call.parse Section.labels true)) fun w =>
  let level := { level with labels := labels }
  match env.create_regions_from_line_stream level_stream broadcast w.store with
  | (none, _, st) =>
    return_int env lt (-1) level ((w.put st).call (Call.parse Section.regions false))
  | (some regions, _, st) =>
  reset_field env (Resource.object Section.regions level.regions)
    ((w.put st).call (Call.parse Section.regions true)) fun w =>
  let level := { level with regions := regions }
  return_int env lt 0 level w

/-- One layer of `level_render`: logs the call with its outcome and stops the
frame with `-1` when the layer fails. -/
def render_layer {E : Type} (s : Section) (r : Int × Store E) (w : World E)
    (k : World E → Res E Int) : Res E Int :=
  if r.1 < 0 then .ok (-1, (w.put r.2).call (Call.render s false))
  else k ((w.put r.2).call (Call.render s true))

/-- Function `level_render`. -/
def level_render {E : Type} (env : Env E) (level : Level) (camera : Nat) (w : World E) :
    Res E Int :=
  render_layer Section.background (env.background_render level.background camera w.store) w
    fun w =>
  render_layer Section.back_platforms
    (env.platforms_render level.back_platforms camera w.store) w fun w =>
  render_layer Section.player (env.player_render level.player camera w.store) w fun w =>
  match boxes_render env level.boxes camera w with
  | .error e => .error e
  | .ok (r, w) =>
  render_layer Section.boxes (r, w.store) w fun w =>
  render_layer Section.lava (env.lava_render level.lava camera w.store) w fun w =>
  render_layer Section.platforms (env.platforms_render level.platforms camera w.store) w
    fun w =>
  render_layer Section.goals (env.goals_render level.goals camera w.store) w fun w =>
  render_layer Section.labels (env.labels_render level.labels camera w.store) w fun w =>
  render_layer Section.regions (env.regions_render level.regions camera w.store) w fun w =>
  .ok (0, w)

/-- Function `level_update`. -/
def level_update {E : Type} (env : Env E) (level : Level) (delta_time : ℚ) (w : World E) :
    Res E Int :=
  if ¬ delta_time > 0 then .error (Fault.assertion_failed, w)
  else
  match boxes_float_in_lava env level.boxes level.lava
      (w.call (Call.boxes_float_in_lava level.lava)) with
  | .error e => .error e
  | .ok (_, w) =>
  let w := (w.call (Call.rigid_bodies_apply_omniforce level.rigid_bodies
    (vec 0 LEVEL_GRAVITY))).put (env.rigid_bodies_apply_omniforce (vec 0 LEVEL_GRAVITY) w.store)
  match boxes_update env level.boxes delta_time (w.call (Call.boxes_update delta_time)) with
  | .error e => .error e
  | .ok (_, w) =>
  let w := (w.call (Call.player_update level.player delta_time)).put
    (env.player_update level.player delta_time w.store)
  let w := (w.call (Call.rigid_bodies_collide level.rigid_bodies level.platforms)).put
    (env.rigid_bodies_collide level.platforms w.store)
  let w := (w.call (Call.player_hide_goals level.player level.goals)).put
    (env.player_hide_goals level.player level.goals w.store)
  let w := (w.call (Call.player_die_from_lava level.player level.lava)).put
    (env.player_die_from_lava level.player level.lava w.store)
  let w := (w.call (Call.regions_player_enter level.regions level.player)).put
    (env.regions_player_enter level.regions level.player w.store)
  let w := (w.call (Call.regions_player_leave level.regions level.player)).put
    (env.regions_player_leave level.regions level.player w.store)
  let w := (w.call (Call.goals_update level.goals delta_time)).put
    (env.goals_update level.goals delta_time w.store)
  let w := (w.call (Call.lava_update level.lava delta_time)).put
    (env.lava_update level.lava delta_time w.store)
  let w := (w.call (Call.labels_update level.labels delta_time)).put
    (env.labels_update level.labels delta_time w.store)
  .ok (0, w)

/-- The events `level_event` distinguishes: `SDL_KEYDOWN` with its key symbol,
`SDL_JOYBUTTONDOWN` with its button, `SDL_MOUSEMOTION` with the relative motion,
`SDL_MOUSEWHEEL` with the vertical scroll, and any other event type. -/
inductive SDL_Event where
  | keydown (sym : Int)
  | joybuttondown (button : Nat)
  | mousemotion (xrel : Int) (yrel : Int)
  | mousewheel (y : Int)
  | other (type : Nat)
deriving DecidableEq

/-- Constant `SDLK_SPACE`. -/
def SDLK_SPACE : Int := 32

/-- Constant `SDL_SCANCODE_A`. -/
def SDL_SCANCODE_A : Nat := 4

/-- Constant `SDL_SCANCODE_D`. -/
def SDL_SCANCODE_D : Nat := 7

/-- Function `level_event`: the return value and the level after the call. -/
def level_event {E : Type} (env : Env E) (level : Level) (event : SDL_Event) (w : World E) :
    Res E (Int × Level) :=
  match event with
  | SDL_Event.keydown sym =>
    if sym = SDLK_SPACE then
      .ok ((0, level), (w.call (Call.player_jump level.player)).put
        (env.player_jump level.player w.store))
    else .ok ((0, level), w)
  | SDL_Event.joybuttondown button =>
    if button = 1 then
      .ok ((0, level), (w.call (Call.player_jump level.player)).put
        (env.player_jump level.player w.store))
    else .ok ((0, level), w)
  | SDL_Event.mousemotion xrel yrel =>
    if level.flying_mode then
      .ok ((0, { level with
                 flying_camera_position :=
                   vec_add level.flying_camera_position
                     (vec (long_to_float xrel) (long_to_float yrel)) }), w)
    else .ok ((0, level), w)
  | SDL_Event.mousewheel y =>
    if level.flying_mode then
      if y > 0 then
        .ok ((0, { level with flying_camera_scale := level.flying_camera_scale + 1 / 10 }), w)
      else if y < 0 then
        .ok ((0, { level with
                   flying_camera_scale := max (1 / 10) (level.flying_camera_scale - 1 / 10) }),
             w)
      else .ok ((0, level), w)
    else .ok ((0, level), w)
  | SDL_Event.other _ => .ok ((0, level), w)

/-- Function `level_input`.  The keyboard state is the array indexed by scan code;
`the_stick_of_joy` is `none` when the pointer is `NULL`. -/
def level_input {E : Type} (env : Env E) (level : Level) (keyboard_state : Nat → Nat)
    (the_stick_of_joy : Option Nat) (w : World E) : Res E Int :=
  if keyboard_state SDL_SCANCODE_A ≠ 0 then
    .ok (0, (w.call (Call.player_move_left level.player)).put
      (env.player_move_left level.player w.store))
  else if keyboard_state SDL_SCANCODE_D ≠ 0 then
    .ok (0, (w.call (Call.player_move_right level.player)).put
      (env.player_move_right level.player w.store))
  else if (match the_stick_of_joy with
           | some stick => decide (env.SDL_JoystickGetAxis stick 0 w.store < 0)
           | none => false) then
    .ok (0, (w.call (Call.player_move_left level.player)).put
      (env.player_move_left level.player w.store))
  else if (match the_stick_of_joy with
           | some stick => decide (env.SDL_JoystickGetAxis stick 0 w.store > 0)
           | none => false) then
    .ok (0, (w.call (Call.player_move_right level.player)).put
      (env.player_move_right level.player w.store))
  else
    .ok (0, (w.call (Call.player_stop level.player)).put
      (env.player_stop level.player w.store))

/-- Conversion `(size_t) id` of a `long int`. -/
def long_to_size_t (n : Int) : Nat := (n % 2 ^ 64).toNat

/-- Conversion `(long int) id` of a `size_t`. -/
def size_t_to_long (n : Nat) : Int :=
  if n % 2 ^ 64 < 2 ^ 63 then Int.ofNat (n % 2 ^ 64) else Int.ofNat (n % 2 ^ 64) - 2 ^ 64

/-- Function `level_send`: the result and the level after the call. -/
def level_send {E : Type} (env : Env E) (level : Level) (path : Expr) (w : World E) :
    Res E (EvalResult × Level) :=
  if (match_list "q*" path).1.is_error then .ok (((match_list "q*" path).1, level), w)
  else
    match capture_str (match_list "q*" path).2 0 none with
    | none => .error (Fault.null_dereference, w)
    | some target =>
      let rest := capture_expr (match_list "q*" path).2 1 Expr.void
      if target = "goal" then
        .ok (((env.goals_send level.goals rest w.store).1, level),
             (w.call (Call.goals_send level.goals)).put
               (env.goals_send level.goals rest w.store).2)
      else if target = "label" then
        .ok (((env.labels_send level.labels rest w.store).1, level),
             (w.call (Call.labels_send level.labels)).put
               (env.labels_send level.labels rest w.store).2)
      else if target = "box" then
        match boxes_send env level.boxes rest (w.call Call.boxes_send) with
        | .error e => .error e
        | .ok ((res, boxes), w) => .ok ((res, { level with boxes := boxes }), w)
      else if target = "body-push" then
        if (match_list "ddd" rest).1.is_error then .ok (((match_list "ddd" rest).1, level), w)
        else
          let caps := (match_list "ddd" rest).2
          .ok ((eval_success NIL, level),
               (w.call (Call.rigid_bodies_apply_force level.rigid_bodies)).put
                 (env.rigid_bodies_apply_force
                   (env.id_of_size_t (long_to_size_t (capture_int caps 0 0)))
                   (vec (long_to_float (capture_int caps 1 0))
                     (long_to_float (capture_int caps 2 0))) w.store))
      else if target = "body-add" then
        if (match_list "dddds" rest).1.is_error then
          .ok (((match_list "dddds" rest).1, level), w)
        else
          let caps := (match_list "dddds" rest).2
          match rigid_bodies_add w.store.pool
              (rect (long_to_float (capture_int caps 0 0)) (long_to_float (capture_int caps 1 0))
                    (long_to_float (capture_int caps 2 0))
                    (long_to_float (capture_int caps 3 0)))
              (env.hexstr (capture_str caps 4 none)) with
          | .error f => .error (f, w)
          | .ok (id, pool) =>
            .ok ((eval_success (Expr.number (size_t_to_long (env.size_t_of_id id))), level),
                 (w.call (Call.rigid_bodies_add level.rigid_bodies)).put
                   { w.store with pool := pool })
      else if target = "fly" then
        .ok ((eval_success NIL, { level with flying_mode := !level.flying_mode }),
             (w.call (Call.SDL_SetRelativeMouseMode (!level.flying_mode))).put
               (env.SDL_SetRelativeMouseMode (!level.flying_mode) w.store))
      else .ok ((unknown_target "level" target, level), w)

/-! ## Observations on runs -/

/-- The world a run ends in, whether it returns or aborts. -/
def outcome_world {E α : Type} : Res E α → World E
  | .ok (_, w) => w
  | .error (_, w) => w

/-- The value a run returns, `none` when it aborts. -/
def outcome_value {E α : Type} : Res E α → Option α
  | .ok (a, _) => some a
  | .error _ => none

/-- The calls a run added to the log of the world `w` it started in. -/
def new_calls {E α : Type} (w : World E) (r : Res E α) : List Call :=
  (outcome_world r).log.drop w.log.length

/-- The sections in the order of the level file. -/
def file_order : List Section :=
  [Section.background, Section.player, Section.platforms, Section.goals, Section.lava,
   Section.back_platforms, Section.boxes, Section.labels, Section.regions]

/-- Position of a section in the level file. -/
def Section.index : Section → Nat
  | Section.background => 0
  | Section.player => 1
  | Section.platforms => 2
  | Section.goals => 3
  | Section.lava => 4
  | Section.back_platforms => 5
  | Section.boxes => 6
  | Section.labels => 7
  | Section.regions => 8

/-- The layers of a frame, back to front. -/
def layer_order : List Section :=
  [Section.background, Section.back_platforms, Section.player, Section.boxes, Section.lava,
   Section.platforms, Section.goals, Section.labels, Section.regions]

/-- The section a parser call belongs to. -/
def Call.parsed : Call → Option Section
  | Call.parse s _ => some s
  | _ => none

/-- The field of section `s` has the same value in both levels. -/
def Level.same_field (s : Section) (a b : Level) : Prop :=
  match s with
  | Section.background => b.background = a.background
  | Section.player => b.player = a.player
  | Section.platforms => b.platforms = a.platforms
  | Section.goals => b.goals = a.goals
  | Section.lava => b.lava = a.lava
  | Section.back_platforms => b.back_platforms = a.back_platforms
  | Section.boxes => b.boxes = a.boxes
  | Section.labels => b.labels = a.labels
  | Section.regions => b.regions = a.regions

/-! ## A concrete environment -/

/-- Section parser of the sample environment: reads one line; fails at the end of
the stream and on a line that starts with an exclamation mark; a parsed object
gets the next unused handle. -/
def sample_section (line_stream : LineStream) (st : Store Nat) :
    Option Nat × LineStream × Store Nat :=
  match (line_stream_next line_stream).1 with
  | none => (none, (line_stream_next line_stream).2, st)
  | some line =>
    if line.head? = some '!' then (none, (line_stream_next line_stream).2, st)
    else (some (st.ext + 1), (line_stream_next line_stream).2, { st with ext := st.ext + 1 })

/-- Render function of the sample environment: fails on the handle `0`. -/
def sample_render (handle : Nat) (_camera : Nat) (st : Store Nat) : Int × Store Nat :=
  (if handle = 0 then -1 else 0, st)

/-- A small environment: one file with the given bytes, one line per section, and
collaborators that leave the store alone. -/
def sample_env (file : List Char) : Env Nat :=
  { fopen := fun _ _ _ => some file
    create_background_from_line_stream := sample_section
    create_player_from_line_stream := fun ls _ _ st => sample_section ls st
    create_platforms_from_line_stream := sample_section
    create_goals_from_line_stream := sample_section
    create_lava_from_line_stream := sample_section
    create_labels_from_line_stream := sample_section
    create_regions_from_line_stream := fun ls _ st => sample_section ls st
    destroy_background := fun _ st => st
    destroy_rigid_bodies := fun _ st => st
    destroy_player := fun _ st => st
    destroy_platforms := fun _ st => st
    destroy_goals := fun _ st => st
    destroy_lava := fun _ st => st
    destroy_labels := fun _ st => st
    destroy_regions := fun _ st => st
    background_render := sample_render
    platforms_render := sample_render
    player_render := sample_render
    rigid_bodies_render := fun _ _ st => (0, st)
    lava_render := sample_render
    goals_render := sample_render
    labels_render := sample_render
    regions_render := sample_render
    lava_float_rigid_body := fun _ _ st => st
    rigid_bodies_apply_omniforce := fun _ st => st
    rigid_bodies_update := fun _ _ st => (0, st)
    player_update := fun _ _ st => st
    rigid_bodies_collide := fun _ st => st
    player_hide_goals := fun _ _ st => st
    player_die_from_lava := fun _ _ st => st
    regions_player_enter := fun _ _ st => st
    regions_player_leave := fun _ _ st => st
    goals_update := fun _ _ st => st
    lava_update := fun _ _ st => st
    labels_update := fun _ _ st => st
    player_jump := fun _ st => st
    player_move_left := fun _ st => st
    player_move_right := fun _ st => st
    player_stop := fun _ st => st
    player_hitbox := fun _ _ => rect 0 0 1 1
    SDL_JoystickGetAxis := fun stick _ _ => (stick : Int) - 10
    SDL_SetRelativeMouseMode := fun _ st => st
    goals_send := fun _ _ st => (eval_success NIL, st)
    labels_send := fun _ _ st => (eval_success NIL, st)
    rigid_bodies_apply_force := fun _ _ st => st
    hexstr := fun _ => rgba 0 0 0 1
    body_record := fun _ => (rect 0 0 1 1, rgba 0 0 0 1)
    id_of_size_t := fun n => { index := n, generation := 0 }
    size_t_of_id := fun id => id.index }

/-- A world with a pool of the given capacity, an empty log, allocations that
succeed and the given random source; the handles in use are below `100`. -/
def sample_world (capacity : Nat) (rand : List ℚ) : World Nat :=
  { store := { ext := 100, pool := empty_rigid_bodies capacity }
    log := []
    heap := []
    rand := rand }

/-- A level without boxes whose objects have the handles `1` to `9`. -/
def sample_level : Level :=
  { file_name := "level.txt"
    background := 1
    rigid_bodies := 2
    player := 3
    platforms := 4
    goals := 5
    lava := 6
    back_platforms := 7
    boxes := { rigid_bodies := 2, body_ids := fun _ => { index := 0, generation := 0 },
               player := 3, count := 0 }
    labels := 8
    regions := 9
    flying_mode := false
    flying_camera_position := vec 0 0
    flying_camera_scale := 1 }

/-- The calls a cleanup makes: destructors of the registered resources. -/
def Call.is_cleanup : Call → Bool
  | Call.destroy _ => true
  | Call.destroy_rigid_bodies => true
  | Call.destroy_line_stream => true
  | _ => false

/-- Outcome of rendering the layers `todo` after the layers `finished` were drawn,
for a frame that started in world `w0`: either every layer is drawn and the
result is `0`, or the layers before some layer `s` are drawn, `s` fails, nothing
after `s` is drawn and the result is `-1`. -/
def render_outcome {E : Type} (finished todo : List Section) (w0 : World E) (r : Res E Int) :
    Prop :=
  (outcome_value r = some 0 ∧
      (outcome_world r).log =
        w0.log ++ (finished ++ todo).map (fun s => Call.render s true)) ∨
    ∃ before s after, todo = before ++ s :: after ∧ outcome_value r = some (-1) ∧
      (outcome_world r).log =
        w0.log ++ (finished ++ before).map (fun s => Call.render s true) ++
          [Call.render s false]

/-- A body at rest. -/
def sample_body : RigidBody :=
  { position := vec 0 0, velocity := vec 0 0, size := vec 1 1, color := rgba 0 0 0 1,
    grounded := false, force := vec 0 0 }

/-- A pool of capacity `1024` in which every slot holds a live body. -/
def full_pool : RigidBodies :=
  { slots := List.replicate 1024 { generation := 1, body := some sample_body } }

/-- The sample world with the full pool in place of the empty one. -/
def full_world : World Nat :=
  { store := { ext := 100, pool := full_pool }
    log := []
    heap := []
    rand := [] }

/-- The path `(box new x y w h)`. -/
def box_new_path (x y w h : Int) : Expr :=
  Expr.list [Expr.symbol "box", Expr.symbol "new", Expr.number x, Expr.number y,
    Expr.number w, Expr.number h]

/-- The commands `level_input` gives to the player. -/
inductive PlayerCommand where
  | move_left
  | move_right
  | stop
deriving DecidableEq, Repr

/-- The call that carries a command to a player. -/
def PlayerCommand.call (c : PlayerCommand) (player : Nat) : Call :=
  match c with
  | PlayerCommand.move_left => Call.player_move_left player
  | PlayerCommand.move_right => Call.player_move_right player
  | PlayerCommand.stop => Call.player_stop player

/-- The effect of a command on the store. -/
def PlayerCommand.effect {E : Type} (c : PlayerCommand) (env : Env E) (player : Nat)
    (st : Store E) : Store E :=
  match c with
  | PlayerCommand.move_left => env.player_move_left player st
  | PlayerCommand.move_right => env.player_move_right player st
  | PlayerCommand.stop => env.player_stop player st

/-- The decision of the input step as the specification words it: key A moves
left; otherwise key D moves right; otherwise, with neither key pressed, a negative
reading of joystick axis 0 moves left and a positive one moves right; otherwise
the player stops.  `axis` is the reading, `none` without a joystick. -/
def input_decision (key_a key_d : Bool) (axis : Option Int) : PlayerCommand :=
  if key_a then PlayerCommand.move_left
  else if key_d then PlayerCommand.move_right
  else
    match axis with
    | some a =>
      if a < 0 then PlayerCommand.move_left
      else if a > 0 then PlayerCommand.move_right
      else PlayerCommand.stop
    | none => PlayerCommand.stop

/-- The things that can happen to the flying camera: an event handled by
`level_event`, or the script command `(fly)` handled by `level_send`. -/
inductive CameraAction where
  | event (e : SDL_Event)
  | fly_toggle
deriving DecidableEq

/-- Runs one camera action. -/
def camera_step {E : Type} (env : Env E) (level : Level) (a : CameraAction) (w : World E) :
    Res E Level :=
  match a with
  | CameraAction.event e =>
    match level_event env level e w with
    | .error x => .error x
    | .ok ((_, level'), w') => .ok (level', w')
  | CameraAction.fly_toggle =>
    match level_send env level (Expr.list [Expr.symbol "fly"]) w with
    | .error x => .error x
    | .ok ((_, level'), w') => .ok (level', w')

/-- Runs a sequence of camera actions. -/
def camera_run {E : Type} (env : Env E) : List CameraAction → Level → World E → Res E Level
  | [], level, w => .ok (level, w)
  | a :: rest, level, w =>
    match camera_step env level a w with
    | .error x => .error x
    | .ok (level', w') => camera_run env rest level' w'

/-- The sample world with the given outcomes of the coming allocations. -/
def heap_world (heap : List (Option Nat)) : World Nat :=
  { store := { ext := 100, pool := empty_rigid_bodies 4 }
    log := []
    heap := heap
    rand := [] }

/-- Calls `line_stream_next` until the end-of-stream sentinel, at most `fuel` times,
and lists what the successful calls returned. -/
def read_all_lines : Nat → LineStream → List (List Char)
  | 0, _ => []
  | fuel + 1, line_stream =>
    match (line_stream_next line_stream).1 with
    | none => []
    | some line => line :: read_all_lines fuel (line_stream_next line_stream).2

/-- Sends a sequence of commands to the boxes, one `boxes_send` call after the
other, and returns the boxes after the last one. -/
def boxes_commands {E : Type} (env : Env E) : List Expr → Boxes → World E → Res E Boxes
  | [], boxes, w => .ok (boxes, w)
  | path :: rest, boxes, w =>
    match boxes_send env boxes path w with
    | .error e => .error e
    | .ok ((_, boxes1), w1) => boxes_commands env rest boxes1 w1

/-- The fault of a run, `none` when the run returns. -/
def outcome_fault {E α : Type} : Res E α → Option Fault
  | .ok _ => none
  | .error (f, _) => some f

/-- Spec-side: in some state of the game the parser `p`, called at the stream
position `ls`, returns the object `v` and leaves the stream at `ls1`. -/
def parsed_by {E : Type} (p : LineStream → Store E → Option Nat × LineStream × Store E)
    (ls ls1 : LineStream) (v : Nat) : Prop :=
  ∃ st st1, p ls st = (some v, ls1, st1)

/-- Spec-side: in some world `create_boxes_from_line_stream`, called at the stream
position `ls`, returns the boxes `b` and leaves the stream at `ls1`. -/
def boxes_parsed_by {E : Type} (env : Env E) (ls ls1 : LineStream) (b : Boxes) : Prop :=
  ∃ (rb p : Nat) (w w1 : World E),
    create_boxes_from_line_stream env ls rb p w = .ok ((some b, ls1), w1)

/-- Spec-side contract of two section parsers ("all section parsers must consume
exactly the lines their format requires"): whether they succeed and where they
leave the stream depend on the stream position alone, not on the state of the
game. -/
def stream_determined {E : Type}
    (p q : LineStream → Store E → Option Nat × LineStream × Store E) : Prop :=
  ∀ ls st st1, (p ls st).1.isSome = (q ls st1).1.isSome ∧ (p ls st).2.1 = (q ls st1).2.1

/-- Spec-side: the store after the bodies `ids` have floated in the lava, one after
the other. -/
def float_bodies {E : Type} (env : Env E) (lava : Nat) (ids : List RigidBodyId)
    (st : Store E) : Store E :=
  ids.foldl (fun st id => env.lava_float_rigid_body lava id st) st

/-- Spec-side: the store after the bodies `ids` have been integrated over the step
`delta_time`, one after the other, up to and including the first body whose update
fails. -/
def integrate_bodies {E : Type} (env : Env E) (delta_time : ℚ) :
    List RigidBodyId → Store E → Store E
  | [], st => st
  | id :: rest, st =>
    if (env.rigid_bodies_update id delta_time st).1 < 0 then
      (env.rigid_bodies_update id delta_time st).2
    else integrate_bodies env delta_time rest (env.rigid_bodies_update id delta_time st).2

/-- Spec-side: the renderer of the boxes layer on the bodies `ids`: the bodies are
drawn one after the other, up to and including the first one whose render fails;
the result is `-1` when one fails and `0` otherwise. -/
def render_bodies {E : Type} (env : Env E) (camera : Nat) :
    List RigidBodyId → Store E → Int × Store E
  | [], st => (0, st)
  | id :: rest, st =>
    if (env.rigid_bodies_render id camera st).1 < 0 then
      (-1, (env.rigid_bodies_render id camera st).2)
    else render_bodies env camera rest (env.rigid_bodies_render id camera st).2

/-- Spec-side: the renderer of a layer, applied to the object the level holds for
that layer; the result is its return value and the store it leaves. -/
def layer_render {E : Type} (env : Env E) (level : Level) (camera : Nat) :
    Section → Store E → Int × Store E
  | Section.background => env.background_render level.background camera
  | Section.back_platforms => env.platforms_render level.back_platforms camera
  | Section.player => env.player_render level.player camera
  | Section.boxes => render_bodies env camera level.boxes.ids
  | Section.lava => env.lava_render level.lava camera
  | Section.platforms => env.platforms_render level.platforms camera
  | Section.goals => env.goals_render level.goals camera
  | Section.labels => env.labels_render level.labels camera
  | Section.regions => env.regions_render level.regions camera

/-- Spec-side: the store left by the renderers of `layers`, applied in this order,
each to the store the one before has left. -/
def layers_store {E : Type} (env : Env E) (level : Level) (camera : Nat)
    (layers : List Section) (st : Store E) : Store E :=
  layers.foldl (fun st s => (layer_render env level camera s st).2) st

/-- Spec-side: the layer `s` succeeds in a frame that starts in the store `st` and
has drawn the layers `before`: its renderer returns a non-negative value. -/
def layer_succeeds {E : Type} (env : Env E) (level : Level) (camera : Nat) (st : Store E)
    (before : List Section) (s : Section) : Prop :=
  0 ≤ (layer_render env level camera s (layers_store env level camera before st)).1

/-- Spec-side: a frame over the given layers: they are drawn in order, each call is
logged with its outcome, and the frame stops with `-1` at the first layer that
fails. -/
def render_layers {E : Type} (env : Env E) (level : Level) (camera : Nat) :
    List Section → World E → Int × World E
  | [], w => (0, w)
  | s :: rest, w =>
    if (layer_render env level camera s w.store).1 < 0 then
      (-1, (w.put (layer_render env level camera s w.store).2).call (Call.render s false))
    else
      render_layers env level camera rest
        ((w.put (layer_render env level camera s w.store).2).call (Call.render s true))

/-- Spec-side: a section of a soft reload whose object is swapped.  `parsed` is what
the parser of the section returned.  On `NULL` the section fails and nothing is
replaced.  Otherwise the old object is released by `destroy`, and the reload goes
on with the level `fresh v` that holds the new object `v`, at the stream position
the parser has reached. -/
def swap_section {E : Type} (s : Section) (parsed : Option Nat × LineStream × Store E)
    (destroy : Store E → Store E) (fresh : Nat → Level) (w : World E) :
    Res E (Option (Level × LineStream)) :=
  match parsed with
  | (none, _, st) => .ok (none, (w.put st).call (Call.parse s false))
  | (some v, line_stream, st) =>
    .ok (some (fresh v, line_stream),
      (((w.put st).call (Call.parse s true)).call (Call.destroy s)).put (destroy st))

/-- Spec-side: one section of a soft reload (section 4.5), read at the stream position
`line_stream` in the world `w`; `none` says that the parser of the section failed.
The player section is parsed against the pool of the level and the parsed player is
destroyed at once, the level keeps its own player.  Every other section is
swapped: the new object is parsed first, then the old one is released and the new
one stored in the level. -/
def reload_section {E : Type} (env : Env E) (broadcast : Nat) (level : Level)
    (line_stream : LineStream) (w : World E) : Section → Res E (Option (Level × LineStream))
  | Section.background =>
    swap_section Section.background
      (env.create_background_from_line_stream line_stream w.store)
      (env.destroy_background level.background) (fun v => { level with background := v }) w
  | Section.player =>
    match env.create_player_from_line_stream line_stream level.rigid_bodies broadcast
        w.store with
    | (none, _, st) => .ok (none, (w.put st).call (Call.parse Section.player false))
    | (some parsed_player, line_stream, st) =>
      .ok (some (level, line_stream),
        (((w.put st).call (Call.parse Section.player true)).call
          (Call.destroy_skipped_player parsed_player)).put
          (env.destroy_player parsed_player st))
  | Section.platforms =>
    swap_section Section.platforms
      (env.create_platforms_from_line_stream line_stream w.store)
      (env.destroy_platforms level.platforms) (fun v => { level with platforms := v }) w
  | Section.goals =>
    swap_section Section.goals (env.create_goals_from_line_stream line_stream w.store)
      (env.destroy_goals level.goals) (fun v => { level with goals := v }) w
  | Section.lava =>
    swap_section Section.lava (env.create_lava_from_line_stream line_stream w.store)
      (env.destroy_lava level.lava) (fun v => { level with lava := v }) w
  | Section.back_platforms =>
    swap_section Section.back_platforms
      (env.create_platforms_from_line_stream line_stream w.store)
      (env.destroy_platforms level.back_platforms)
      (fun v => { level with back_platforms := v }) w
  | Section.boxes =>
    match create_boxes_from_line_stream env line_stream level.rigid_bodies level.player w with
    | .error e => .error e
    | .ok ((none, _), w1) => .ok (none, w1.call (Call.parse Section.boxes false))
    | .ok ((some boxes, line_stream), w1) =>
      match destroy_boxes level.boxes
          ((w1.call (Call.parse Section.boxes true)).call (Call.destroy Section.boxes)) with
      | .error e => .error e
      | .ok (_, w2) => .ok (some ({ level with boxes := boxes }, line_stream), w2)
  | Section.labels =>
    swap_section Section.labels (env.create_labels_from_line_stream line_stream w.store)
      (env.destroy_labels level.labels) (fun v => { level with labels := v }) w
  | Section.regions =>
    swap_section Section.regions
      (env.create_regions_from_line_stream line_stream broadcast w.store)
      (env.destroy_regions level.regions) (fun v => { level with regions := v }) w

/-- Spec-side: the sections `todo` of a soft reload, read one after the other, each
at the stream position and in the world the one before has left.  The result
names the section whose parser failed, if one did, with the level and the stream
position reached; no section after a failed one is read. -/
def reload_sections {E : Type} (env : Env E) (broadcast : Nat) :
    List Section → Level → LineStream → World E → Res E (Option Section × Level × LineStream)
  | [], level, line_stream, w => .ok ((none, level, line_stream), w)
  | s :: todo, level, line_stream, w =>
    match reload_section env broadcast level line_stream w s with
    | .error e => .error e
    | .ok (none, w1) => .ok ((some s, level, line_stream), w1)
    | .ok (some (level1, line_stream1), w1) =>
      reload_sections env broadcast todo level1 line_stream1 w1

/-- Spec-side: the world in which a soft reload reads its first section: the cleanup
list and the line stream have been allocated and the file is open. -/
def reload_start {E : Type} (env : Env E) (level : Level) (w : World E) : World E :=
  (w.allocated.after_create_line_stream env level.file_name "r").call
    (Call.create_line_stream level.file_name true)

/-- Spec-side: the end of a soft reload: the line stream is closed; the result is `0`
when no section failed and `-1` otherwise, with the level as the sections read
have left it. -/
def reload_finish {E : Type} (r : Res E (Option Section × Level × LineStream)) :
    Res E (Int × Level) :=
  match r with
  | .error e => .error e
  | .ok ((failed, level, _), w) =>
    .ok ((if failed.isSome then -1 else 0, level), w.call Call.destroy_line_stream)

/-- Spec-side: a soft reload (section 4.5): the file of the level is opened as a line
stream, the nine sections are read in the order of the file, and the stream is
closed. -/
def reload_by_sections {E : Type} (env : Env E) (level : Level) (broadcast : Nat)
    (w : World E) : Res E (Int × Level) :=
  match alloc w with
  | none => .ok ((-1, level), w.allocated)
  | some _ =>
    match create_line_stream env level.file_name "r" LEVEL_LINE_MAX_LENGTH w.allocated with
    | none =>
      .ok ((-1, level),
        (w.allocated.after_create_line_stream env level.file_name "r").call
          (Call.create_line_stream level.file_name false))
    | some line_stream =>
      reload_finish
        (reload_sections env broadcast file_order level line_stream (reload_start env level w))

/-- Spec-side: the field of the section `t` of `level1` holds an object that the
parser of `t` has returned (for the boxes: that `create_boxes_from_line_stream` has
returned).  The player section is never swapped: for it, `level1` holds the
player of `level`. -/
def Level.fresh_field {E : Type} (env : Env E) (broadcast : Nat) (t : Section)
    (level level1 : Level) : Prop :=
  match t with
  | Section.background =>
    ∃ ls ls1, parsed_by env.create_background_from_line_stream ls ls1 level1.background
  | Section.player => level1.player = level.player
  | Section.platforms =>
    ∃ ls ls1, parsed_by env.create_platforms_from_line_stream ls ls1 level1.platforms
  | Section.goals => ∃ ls ls1, parsed_by env.create_goals_from_line_stream ls ls1 level1.goals
  | Section.lava => ∃ ls ls1, parsed_by env.create_lava_from_line_stream ls ls1 level1.lava
  | Section.back_platforms =>
    ∃ ls ls1, parsed_by env.create_platforms_from_line_stream ls ls1 level1.back_platforms
  | Section.boxes => ∃ ls ls1, boxes_parsed_by env ls ls1 level1.boxes
  | Section.labels =>
    ∃ ls ls1, parsed_by env.create_labels_from_line_stream ls ls1 level1.labels
  | Section.regions =>
    ∃ ls ls1, parsed_by (fun ls st => env.create_regions_from_line_stream ls broadcast st)
      ls ls1 level1.regions

@[simp] theorem call_log {E : Type} (w : World E) (c : Call) : (w.call c).log = w.log ++ [c] :=
  rfl

@[simp] theorem put_log {E : Type} (w : World E) (s : Store E) : (w.put s).log = w.log := rfl

@[simp] theorem allocated_log {E : Type} (w : World E) : w.allocated.log = w.log := rfl

@[simp] theorem call_store {E : Type} (w : World E) (c : Call) : (w.call c).store = w.store :=
  rfl

@[simp] theorem put_store {E : Type} (w : World E) (s : Store E) : (w.put s).store = s := rfl

@[simp] theorem allocated_store {E : Type} (w : World E) : w.allocated.store = w.store := rfl

@[simp] theorem after_create_line_stream_log {E : Type} (env : Env E) (f m : String)
    (w : World E) : (w.after_create_line_stream env f m).log = w.log := by
  unfold World.after_create_line_stream
  repeat' split
  all_goals rfl

@[simp] theorem after_create_line_stream_store {E : Type} (env : Env E) (f m : String)
    (w : World E) : (w.after_create_line_stream env f m).store = w.store := by
  unfold World.after_create_line_stream
  repeat' split
  all_goals rfl

@[simp] theorem outcome_world_ok {E α : Type} (a : α) (w : World E) :
    outcome_world (Except.ok (a, w) : Res E α) = w := rfl

@[simp] theorem outcome_world_error {E α : Type} (e : Fault × World E) :
    outcome_world (Except.error e : Res E α) = e.2 := rfl

@[simp] theorem outcome_value_ok {E α : Type} (a : α) (w : World E) :
    outcome_value (Except.ok (a, w) : Res E α) = some a := rfl

@[simp] theorem outcome_value_error {E α : Type} (e : Fault × World E) :
    outcome_value (Except.error e : Res E α) = none := rfl

/-- Reading a cell of `body_ids` leaves the world as it is. -/
theorem read_world {E : Type} (b : Boxes) (i : Nat) (w : World E) {r : Res E RigidBodyId}
    (h : b.read i w = r) : outcome_world r = w := by
  subst h
  unfold Boxes.read
  split <;> rfl

/-- The loop of `destroy_boxes` adds nothing to the log. -/
theorem destroy_boxes_loop_log {E : Type} (b : Boxes) (l : List Nat) (w : World E)
    {r : Res E Unit} (h : destroy_boxes_loop b l w = r) : (outcome_world r).log = w.log := by
  subst h
  induction l generalizing w with
  | nil => rfl
  | cons i rest ih =>
    unfold destroy_boxes_loop
    split
    · rename_i e h
      exact congrArg World.log (read_world b i w h)
    · rename_i id w1 h
      rw [ih, put_log]
      exact congrArg World.log (read_world b i w h)

/-- Function `destroy_boxes` adds nothing to the log. -/
theorem destroy_boxes_log {E : Type} (b : Boxes) (w : World E) {r : Res E Unit}
    (h : destroy_boxes b w = r) : (outcome_world r).log = w.log :=
  destroy_boxes_loop_log b _ w h

/-- The loop of `create_boxes_from_line_stream` adds nothing to the log. -/
theorem create_boxes_loop_log {E : Type} (env : Env E) (n i : Nat) (ids : Nat → RigidBodyId)
    (ls : LineStream) (w : World E) {r : Res E ((Nat → RigidBodyId) × LineStream)}
    (h : create_boxes_loop env n i ids ls w = r) : (outcome_world r).log = w.log := by
  subst h
  induction n generalizing i ids ls w with
  | zero => rfl
  | succ n ih =>
    unfold create_boxes_loop rigid_bodies_add_from_line_stream
    split
    · rename_i e h
      split at h
      · cases h; rfl
      · cases h
    · rename_i id ls1 w1 h
      split at h
      · cases h
      · cases h
        split
        · rw [ih]; rfl
        · rfl

/-- Function `create_boxes_from_line_stream` adds nothing to the log. -/
theorem create_boxes_log {E : Type} (env : Env E) (ls : LineStream) (rb p : Nat) (w : World E)
    {r : Res E (Option Boxes × LineStream)}
    (h : create_boxes_from_line_stream env ls rb p w = r) : (outcome_world r).log = w.log := by
  subst h
  unfold create_boxes_from_line_stream
  dsimp only
  repeat' split
  all_goals first
    | rfl
    | (simp; done)
    | (rename_i h; simpa using create_boxes_loop_log _ _ _ _ _ _ h)

/-! ## Soft reload: failure leaves the later sections alone (C1) -/

/-- C1 (as stated, refuted): reloading `sample_level` from a file that is
truncated after the player section fails with `-1` in the platforms section,
yet the background field no longer holds its previous value. -/
theorem reload_not_atomic :
    ∃ level' w',
      level_reload_preserve_player (sample_env "bg\nplayer\n".toList) sample_level 0
          (sample_world 4 []) = .ok ((-1, level'), w') ∧
        Call.parse Section.platforms false ∈ w'.log ∧
        level'.background ≠ sample_level.background := by
  refine ⟨_, _, rfl, ?_, ?_⟩
  · decide
  · decide

/-- C1 (amended): when the parser of a section `s` returns failure during
`level_reload_preserve_player`, the call returns `-1`.  The level it leaves is the
level that the sections before `s`, read in the order of the file from the opened
stream, have left (`reload_sections`), and the section `s` fails on it.  In that
level the field of `s` and of every section after it in the file holds the value it
held before the call; the `player` and `rigid_bodies` fields hold the values of
before; and the field of every section before `s` other than the player section
holds an object returned by its parser. -/
theorem reload_failure_keeps_later_sections {E : Type} (env : Env E) (level : Level)
    (broadcast : Nat) (w : World E) (s : Section)
    (h : Call.parse s false ∈
      new_calls w (level_reload_preserve_player env level broadcast w)) :
    ∃ level', outcome_value (level_reload_preserve_player env level broadcast w) =
        some (-1, level') ∧
      (∀ t : Section, s.index ≤ t.index → Level.same_field t level level') ∧
      level'.player = level.player ∧ level'.rigid_bodies = level.rigid_bodies ∧
      (∀ t : Section, t.index < s.index → Level.fresh_field env broadcast t level level') ∧
      ∃ ls0 ls w1 w2,
        create_line_stream env level.file_name "r" LEVEL_LINE_MAX_LENGTH w.allocated =
          some ls0 ∧
        reload_sections env broadcast (file_order.take s.index) level ls0
          (reload_start env level w) = .ok ((none, level', ls), w1) ∧
        reload_section env broadcast level' ls w1 s = .ok (none, w2) := by
  revert h
  generalize hr : level_reload_preserve_player env level broadcast w = r
  simp only [level_reload_preserve_player, reset_field, RESET_LT, return_int, RETURN_LT,
    destroy_resource, call_store, put_store, allocated_store,
    after_create_line_stream_store] at hr
  repeat' split at hr
  all_goals subst hr
  all_goals try have hb := create_boxes_log _ _ _ _ _ ‹create_boxes_from_line_stream _ _ _ _ _ = _›
  all_goals try have hd := destroy_boxes_log _ _ ‹destroy_boxes _ _ = _›
  all_goals try simp only [outcome_world_ok, outcome_world_error, call_log, put_log,
      allocated_log, after_create_line_stream_log] at hb
  all_goals try simp only [outcome_world_ok, outcome_world_error, call_log, put_log,
      allocated_log, after_create_line_stream_log, hb] at hd
  all_goals simp only [new_calls, outcome_world_ok, outcome_world_error, call_log, put_log,
      allocated_log, after_create_line_stream_log, outcome_value_ok, outcome_value_error]
  all_goals try simp only [hd]
  all_goals try simp only [hb]
  all_goals intro h
  all_goals simp at h
  all_goals subst h
  all_goals
    exact ⟨_, rfl,
      by
        intro t ht
        cases t <;> first
          | exact absurd ht (by decide)
          | exact rfl,
      rfl, rfl,
      by
        intro t ht
        cases t <;> first
          | exact absurd ht (by decide)
          | exact rfl
          | exact ⟨_, _, _, _, by assumption⟩
          | exact ⟨_, _, _, _, _, _, by assumption⟩,
      _, _, _, _, by assumption,
      by
        simp only [file_order, Section.index, List.take, reload_sections, reload_section,
          swap_section, reload_start, call_store, put_store, allocated_store,
          after_create_line_stream_store, *]
        rfl,
      by
        simp only [reload_section, swap_section, call_store, put_store, allocated_store,
          after_create_line_stream_store, *]
        rfl⟩

/-- Witness of `reload_failure_keeps_later_sections`: the truncated file of
`reload_not_atomic`, where the platforms section fails. -/
theorem reload_failure_keeps_later_sections_witness :
    Call.parse Section.platforms false ∈
        new_calls (sample_world 4 [])
          (level_reload_preserve_player (sample_env "bg\nplayer\n".toList) sample_level 0
            (sample_world 4 [])) ∧
      ∃ level',
        outcome_value
            (level_reload_preserve_player (sample_env "bg\nplayer\n".toList) sample_level 0
              (sample_world 4 [])) = some (-1, level') ∧
          (∀ t : Section, Section.platforms.index ≤ t.index →
            Level.same_field t sample_level level') ∧
          level'.player = sample_level.player ∧
          ∀ t : Section, t.index < Section.platforms.index →
            Level.fresh_field (sample_env "bg\nplayer\n".toList) 0 t sample_level level' := by
  refine ⟨by decide, ?_⟩
  obtain ⟨level', h1, h2, h3, -, h5, -⟩ :=
    reload_failure_keeps_later_sections (sample_env "bg\nplayer\n".toList) sample_level 0
      (sample_world 4 []) Section.platforms (by decide)
  exact ⟨level', h1, h2, h3, h5⟩

/-! ## Frame update: order of the phases (C2) -/

/-- Within the array, reading a cell of `body_ids` succeeds. -/
theorem read_ok {E : Type} (b : Boxes) (i : Nat) (w : World E) (h : i < BOXES_CAPACITY) :
    b.read i w = .ok (b.body_ids i, w) := by
  unfold Boxes.read
  rw [if_pos h]

/-- The loop of `boxes_float_in_lava` over indices inside the array returns and adds
nothing to the log. -/
theorem boxes_float_in_lava_loop_ok {E : Type} (env : Env E) (b : Boxes) (lava : Nat)
    (l : List Nat) (hl : ∀ i ∈ l, i < BOXES_CAPACITY) (w : World E) :
    ∃ w', boxes_float_in_lava_loop env b lava l w = .ok ((), w') ∧ w'.log = w.log := by
  induction l generalizing w with
  | nil => exact ⟨w, rfl, rfl⟩
  | cons i rest ih =>
    unfold boxes_float_in_lava_loop
    rw [read_ok b i w (hl i (List.mem_cons_self i rest))]
    obtain ⟨w', h1, h2⟩ := ih (fun j hj => hl j (List.mem_cons_of_mem i hj))
      (w.put (env.lava_float_rigid_body lava (b.body_ids i) w.store))
    exact ⟨w', h1, h2⟩

/-- The loop of `boxes_update` over indices inside the array returns and adds nothing
to the log. -/
theorem boxes_update_loop_ok {E : Type} (env : Env E) (b : Boxes) (dt : ℚ)
    (l : List Nat) (hl : ∀ i ∈ l, i < BOXES_CAPACITY) (w : World E) :
    ∃ r w', boxes_update_loop env b dt l w = .ok (r, w') ∧ w'.log = w.log := by
  induction l generalizing w with
  | nil => exact ⟨0, w, rfl, rfl⟩
  | cons i rest ih =>
    unfold boxes_update_loop
    rw [read_ok b i w (hl i (List.mem_cons_self i rest))]
    dsimp only
    split
    · exact ⟨-1, _, rfl, rfl⟩
    · obtain ⟨r, w', h1, h2⟩ := ih (fun j hj => hl j (List.mem_cons_of_mem i hj))
        (w.put (env.rigid_bodies_update (b.body_ids i) dt w.store).2)
      exact ⟨r, w', h1, h2⟩

/-- The loop of `boxes_render` over indices inside the array returns `0` or `-1` and
adds nothing to the log. -/
theorem boxes_render_loop_ok {E : Type} (env : Env E) (b : Boxes) (camera : Nat)
    (l : List Nat) (hl : ∀ i ∈ l, i < BOXES_CAPACITY) (w : World E) :
    ∃ r w', boxes_render_loop env b camera l w = .ok (r, w') ∧ w'.log = w.log := by
  induction l generalizing w with
  | nil => exact ⟨0, w, rfl, rfl⟩
  | cons i rest ih =>
    unfold boxes_render_loop
    rw [read_ok b i w (hl i (List.mem_cons_self i rest))]
    dsimp only
    split
    · exact ⟨-1, _, rfl, rfl⟩
    · obtain ⟨r, w', h1, h2⟩ := ih (fun j hj => hl j (List.mem_cons_of_mem i hj))
        (w.put (env.rigid_bodies_render (b.body_ids i) camera w.store).2)
      exact ⟨r, w', h1, h2⟩

/-- The indices `0 .. count - 1` lie inside the array when `count` does not exceed
the capacity. -/
theorem range_in_bounds (b : Boxes) (h : b.count ≤ BOXES_CAPACITY) :
    ∀ i ∈ List.range b.count, i < BOXES_CAPACITY :=
  fun _ hi => Nat.lt_of_lt_of_le (List.mem_range.mp hi) h

/-- The loop of `boxes_float_in_lava` over indices inside the array lets the bodies of
these cells float, in order, and changes nothing else. -/
theorem boxes_float_in_lava_loop_eq {E : Type} (env : Env E) (b : Boxes) (lava : Nat)
    (l : List Nat) (hl : ∀ i ∈ l, i < BOXES_CAPACITY) (w : World E) :
    boxes_float_in_lava_loop env b lava l w =
      .ok ((), w.put (float_bodies env lava (l.map b.body_ids) w.store)) := by
  induction l generalizing w with
  | nil => rfl
  | cons i rest ih =>
    unfold boxes_float_in_lava_loop
    rw [read_ok b i w (hl i (List.mem_cons_self i rest))]
    dsimp only
    rw [ih (fun j hj => hl j (List.mem_cons_of_mem i hj))]
    rfl

/-- The loop of `boxes_update` over indices inside the array integrates the bodies of
these cells, in order, up to the first failure, and changes nothing else. -/
theorem boxes_update_loop_eq {E : Type} (env : Env E) (b : Boxes) (dt : ℚ)
    (l : List Nat) (hl : ∀ i ∈ l, i < BOXES_CAPACITY) (w : World E) :
    ∃ r, boxes_update_loop env b dt l w =
      .ok (r, w.put (integrate_bodies env dt (l.map b.body_ids) w.store)) := by
  induction l generalizing w with
  | nil => exact ⟨0, rfl⟩
  | cons i rest ih =>
    unfold boxes_update_loop
    rw [read_ok b i w (hl i (List.mem_cons_self i rest))]
    dsimp only
    by_cases hneg : (env.rigid_bodies_update (b.body_ids i) dt w.store).1 < 0
    · rw [if_pos hneg]
      refine ⟨-1, ?_⟩
      simp only [List.map_cons, integrate_bodies, if_pos hneg]
    · rw [if_neg hneg]
      obtain ⟨r, hr⟩ := ih (fun j hj => hl j (List.mem_cons_of_mem i hj))
        (w.put (env.rigid_bodies_update (b.body_ids i) dt w.store).2)
      refine ⟨r, ?_⟩
      rw [hr]
      simp only [List.map_cons, integrate_bodies, if_neg hneg, put_store]
      rfl

/-- C2: for a step `delta_time > 0` and a level whose box count is within the
capacity of `body_ids`, `level_update` returns `0` and performs its twelve phases
once each, in this order: boxes float in lava, gravity `(0, 1500)` applied to the
pool as an omniforce, boxes integrated, player updated, pool collided with the
foreground platforms, player hides goals, player dies from lava, regions
player-enter, regions player-leave, goals update, lava update, labels update.  The
store the call leaves is the store it started in with the effects of the twelve
collaborators applied in this order, each to the store the one before has left;
the log has the twelve calls in this order and nothing else changes. -/
theorem level_update_phases {E : Type} (env : Env E) (level : Level) (delta_time : ℚ)
    (w : World E) (hdt : delta_time > 0) (hcount : level.boxes.count ≤ BOXES_CAPACITY) :
    level_update env level delta_time w =
      .ok (0,
        { store :=
            env.labels_update level.labels delta_time
              (env.lava_update level.lava delta_time
                (env.goals_update level.goals delta_time
                  (env.regions_player_leave level.regions level.player
                    (env.regions_player_enter level.regions level.player
                      (env.player_die_from_lava level.player level.lava
                        (env.player_hide_goals level.player level.goals
                          (env.rigid_bodies_collide level.platforms
                            (env.player_update level.player delta_time
                              (integrate_bodies env delta_time level.boxes.ids
                                (env.rigid_bodies_apply_omniforce (vec 0 1500)
                                  (float_bodies env level.lava level.boxes.ids
                                    w.store)))))))))))
          log := w.log ++
            [Call.boxes_float_in_lava level.lava,
             Call.rigid_bodies_apply_omniforce level.rigid_bodies (vec 0 1500),
             Call.boxes_update delta_time,
             Call.player_update level.player delta_time,
             Call.rigid_bodies_collide level.rigid_bodies level.platforms,
             Call.player_hide_goals level.player level.goals,
             Call.player_die_from_lava level.player level.lava,
             Call.regions_player_enter level.regions level.player,
             Call.regions_player_leave level.regions level.player,
             Call.goals_update level.goals delta_time,
             Call.lava_update level.lava delta_time,
             Call.labels_update level.labels delta_time]
          heap := w.heap
          rand := w.rand }) := by
  have h1 := boxes_float_in_lava_loop_eq env level.boxes level.lava _
    (range_in_bounds level.boxes hcount) (w.call (Call.boxes_float_in_lava level.lava))
  obtain ⟨r2, h2⟩ := boxes_update_loop_eq env level.boxes delta_time _
    (range_in_bounds level.boxes hcount)
    (World.call (World.put (World.call (World.put
      (World.call w (Call.boxes_float_in_lava level.lava))
      (float_bodies env level.lava level.boxes.ids w.store))
      (Call.rigid_bodies_apply_omniforce level.rigid_bodies (vec 0 LEVEL_GRAVITY)))
      (env.rigid_bodies_apply_omniforce (vec 0 LEVEL_GRAVITY)
        (float_bodies env level.lava level.boxes.ids w.store)))
      (Call.boxes_update delta_time))
  have hne : delta_time ≠ 0 := ne_of_gt hdt
  simp only [call_store, put_store] at h1 h2
  simp only [level_update, boxes_float_in_lava, boxes_update, h1, hdt, hne, not_true,
    if_false, call_store, put_store, Boxes.ids] at h2 ⊢
  rw [h2]
  simp [World.call, World.put, LEVEL_GRAVITY, Boxes.ids]

/-- Witness of `level_update_phases`: one step of `1 / 60` on `sample_level`. -/
theorem level_update_phases_witness :
    (1 / 60 : ℚ) > 0 ∧ sample_level.boxes.count ≤ BOXES_CAPACITY ∧
      outcome_value (level_update (sample_env []) sample_level (1 / 60) (sample_world 4 [])) =
        some 0 :=
  ⟨by norm_num, by decide, by
    rw [level_update_phases (sample_env []) sample_level (1 / 60) (sample_world 4 [])
      (by norm_num) (by decide)]
    rfl⟩

/-! ## Level construction: parser order, all or nothing -/

/-- The loop of `destroy_boxes` over indices inside the array does not abort. -/
theorem destroy_boxes_loop_ok {E : Type} (b : Boxes) (l : List Nat)
    (hl : ∀ i ∈ l, i < BOXES_CAPACITY) (w : World E) :
    ∃ w', destroy_boxes_loop b l w = .ok ((), w') := by
  induction l generalizing w with
  | nil => exact ⟨w, rfl⟩
  | cons i rest ih =>
    unfold destroy_boxes_loop
    rw [read_ok b i w (hl i (List.mem_cons_self i rest))]
    exact ih (fun j hj => hl j (List.mem_cons_of_mem i hj)) _

/-- Function `destroy_boxes` does not abort on boxes whose count is within the
capacity. -/
theorem destroy_boxes_no_abort {E : Type} (b : Boxes) (h : b.count ≤ BOXES_CAPACITY)
    (w : World E) (e : Fault × World E) : destroy_boxes b w ≠ .error e := by
  obtain ⟨w', hw⟩ := destroy_boxes_loop_ok b _ (range_in_bounds b h) w
  unfold destroy_boxes
  rw [hw]
  exact fun hc => by cases hc

/-- Boxes returned by `create_boxes_from_line_stream` have a count below the capacity. -/
theorem create_boxes_count {E : Type} {env : Env E} {ls ls' : LineStream} {rb p : Nat}
    {w w' : World E} {b : Boxes}
    (h : create_boxes_from_line_stream env ls rb p w = .ok ((some b, ls'), w')) :
    b.count < BOXES_CAPACITY := by
  unfold create_boxes_from_line_stream at h
  dsimp only at h
  repeat' split at h
  all_goals cases h <;> exact ‹count_after_sscanf _ _ < BOXES_CAPACITY›

/-- A destructor adds only cleanup calls to the log. -/
theorem destroy_resource_log {E : Type} (env : Env E) (res : Resource) (w : World E)
    {r : Res E Unit} (h : destroy_resource env res w = r) :
    ∃ evs, (outcome_world r).log = w.log ++ evs ∧ ∀ c ∈ evs, c.is_cleanup = true := by
  subst h
  cases res with
  | memory => exact ⟨[], by simp [destroy_resource], by simp⟩
  | line_stream =>
    exact ⟨[Call.destroy_line_stream], by simp [destroy_resource], by simp [Call.is_cleanup]⟩
  | rigid_bodies pool =>
    exact ⟨[Call.destroy_rigid_bodies], by simp [destroy_resource], by simp [Call.is_cleanup]⟩
  | object s handle =>
    exact ⟨[Call.destroy s], by simp [destroy_resource], by simp [Call.is_cleanup]⟩
  | boxes b =>
    refine ⟨[Call.destroy Section.boxes], ?_, by simp [Call.is_cleanup]⟩
    simp only [destroy_resource]
    rw [destroy_boxes_log b _ rfl, call_log]

/-- Macro `RETURN_LT` adds only cleanup calls to the log. -/
theorem RETURN_LT_log {E : Type} (env : Env E) (lt : List Resource) (w : World E)
    {r : Res E Unit} (h : RETURN_LT env lt w = r) :
    ∃ evs, (outcome_world r).log = w.log ++ evs ∧ ∀ c ∈ evs, c.is_cleanup = true := by
  subst h
  induction lt generalizing w with
  | nil => exact ⟨[], by simp [RETURN_LT], by simp⟩
  | cons res rest ih =>
    unfold RETURN_LT
    split
    · rename_i e he
      exact destroy_resource_log env res w he
    · rename_i u w1 he
      obtain ⟨evs1, h1, c1⟩ := destroy_resource_log env res w he
      obtain ⟨evs2, h2, c2⟩ := ih w1
      refine ⟨evs1 ++ evs2, ?_, ?_⟩
      · rw [h2]
        simp only [outcome_world_ok] at h1
        rw [h1, List.append_assoc]
      · intro c hc
        rcases List.mem_append.mp hc with hc | hc
        · exact c1 c hc
        · exact c2 c hc

/-- Macro `RETURN_LT` does not abort when the boxes it destroys have a count within
the capacity. -/
theorem RETURN_LT_no_abort {E : Type} (env : Env E) (lt : List Resource)
    (hlt : ∀ b, Resource.boxes b ∈ lt → b.count ≤ BOXES_CAPACITY) (w : World E)
    (e : Fault × World E) : RETURN_LT env lt w ≠ .error e := by
  induction lt generalizing w with
  | nil => exact fun hc => by cases hc
  | cons res rest ih =>
    unfold RETURN_LT
    split
    · rename_i e' he
      cases res with
      | boxes b =>
        exact (destroy_boxes_no_abort b (hlt b (List.mem_cons_self _ _)) _ _ he).elim
      | _ => cases he
    · exact ih (fun b hb => hlt b (List.mem_cons_of_mem _ hb)) _

/-- Cleanup calls are not parser calls. -/
theorem cleanup_not_parse {evs : List Call} (h : ∀ c ∈ evs, c.is_cleanup = true)
    (s : Section) (ok : Bool) : Call.parse s ok ∉ evs :=
  fun hm => by simpa [Call.is_cleanup] using h _ hm

/-- Cleanup calls are not calls of `create_line_stream`. -/
theorem cleanup_not_open {evs : List Call} (h : ∀ c ∈ evs, c.is_cleanup = true)
    (f : String) (ok : Bool) : Call.create_line_stream f ok ∉ evs :=
  fun hm => by simpa [Call.is_cleanup] using h _ hm

/-- Cleanup calls contribute no section to the list of parsed sections. -/
theorem cleanup_parsed {evs : List Call} (h : ∀ c ∈ evs, c.is_cleanup = true) :
    evs.filterMap Call.parsed = [] := by
  induction evs with
  | nil => rfl
  | cons c rest ih =>
    have hc := h c (List.mem_cons_self _ _)
    have hr := ih (fun d hd => h d (List.mem_cons_of_mem _ hd))
    cases c <;> simp [Call.is_cleanup] at hc <;> simp [Call.parsed, hr]
/-- The parser calls of `create_level_from_file`, stated on the call log.  The
function calls the section parsers in the order of the level file (background,
player, platforms, goals, lava, back-platforms, boxes, labels, regions) and stops
at the first parser that returns `NULL`.  For the calls `new_calls w r` of a run
with outcome `r`: the parsed sections form an initial segment of `file_order`; a
parser that fails is the last one called and the result is `NULL`; a stream that
cannot be opened gives `NULL` and no parser is called; when all nine parsers
succeed a level is returned, with `flying_mode = false`, flying camera position
`(0, 0)` and flying camera scale `1`; and a level is returned only then. -/
theorem create_level_all_or_nothing {E : Type} (env : Env E) (file_name : String)
    (broadcast : Nat) (w : World E) (r : Res E (Option Level))
    (hr : create_level_from_file env file_name broadcast w = r) :
    (new_calls w r).filterMap Call.parsed <+: file_order ∧
      (∀ s, Call.parse s false ∈ new_calls w r →
        outcome_value r = some none ∧
          ((new_calls w r).filterMap Call.parsed).getLast? = some s) ∧
      (Call.create_line_stream file_name false ∈ new_calls w r →
        outcome_value r = some none ∧ (new_calls w r).filterMap Call.parsed = []) ∧
      ((∀ s ∈ file_order, Call.parse s true ∈ new_calls w r) →
        ∃ level, outcome_value r = some (some level) ∧ level.flying_mode = false ∧
          level.flying_camera_position = vec 0 0 ∧ level.flying_camera_scale = 1) ∧
      (∀ level, outcome_value r = some (some level) →
        ∀ s ∈ file_order, Call.parse s true ∈ new_calls w r) := by
  simp only [create_level_from_file, return_null, call_store, put_store, allocated_store,
    after_create_line_stream_store] at hr
  repeat' split at hr
  all_goals subst hr
  all_goals try have hb := create_boxes_log _ _ _ _ _ ‹create_boxes_from_line_stream _ _ _ _ _ = _›
  all_goals try have hc := create_boxes_count ‹create_boxes_from_line_stream _ _ _ _ _ = _›
  all_goals try
    (have hR := ‹RETURN_LT _ _ _ = Except.error _›
     have hn := RETURN_LT_no_abort _ _
       (by intro b hm; simp at hm <;> (subst hm; exact Nat.le_of_lt hc)) _ _ hR
     exact hn.elim)
  all_goals try
    (have hR := ‹RETURN_LT _ _ _ = _›
     have h3 := RETURN_LT_log _ _ _ hR
     obtain ⟨evs, hd, hev⟩ := h3)
  all_goals try have hev1 := cleanup_not_parse hev
  all_goals try have hev2 := cleanup_not_open hev
  all_goals try have hev3 := cleanup_parsed hev
  all_goals try simp only [outcome_world_ok, outcome_world_error, call_log, put_log,
      allocated_log, after_create_line_stream_log] at hb
  all_goals try simp only [outcome_world_ok, outcome_world_error, call_log, put_log,
      allocated_log, after_create_line_stream_log] at hd
  all_goals try simp only [hb] at hd
  all_goals simp only [new_calls, outcome_world_ok, outcome_world_error, call_log, put_log,
      allocated_log, after_create_line_stream_log, outcome_value_ok, outcome_value_error]
  all_goals try simp only [hd]
  all_goals try simp only [hb]
  all_goals refine ⟨?_, ?_, ?_, ?_, ?_⟩
  all_goals first
    | (simp [hev1, hev2, hev3, Call.parsed, file_order]; done)
    | (simp [Call.parsed, file_order]; done)
    | (intro h
       have h9 := h Section.regions (by simp [file_order])
       simp [hev1] at h9)
    | (intro h
       have h9 := h Section.regions (by simp [file_order])
       simp at h9)

/-- Witness of `create_level_all_or_nothing`: a complete level file with two boxes;
all nine parsers succeed and a level is returned. -/
theorem create_level_all_or_nothing_witness :
    (∀ s ∈ file_order, Call.parse s true ∈
        new_calls (sample_world 4 [])
          (create_level_from_file
            (sample_env "bg\nplayer\npl\ngoals\nlava\nbp\n2\nb1\nb2\nlabels\nregions\n".toList)
            "level.txt" 0 (sample_world 4 []))) ∧
      ∃ level,
        outcome_value
            (create_level_from_file
              (sample_env "bg\nplayer\npl\ngoals\nlava\nbp\n2\nb1\nb2\nlabels\nregions\n".toList)
              "level.txt" 0 (sample_world 4 [])) = some (some level) ∧
          level.flying_mode = false ∧ level.flying_camera_position = vec 0 0 ∧
          level.flying_camera_scale = 1 :=
  ⟨by decide,
   (create_level_all_or_nothing _ "level.txt" 0 (sample_world 4 []) _ rfl).2.2.2.1
     (by decide)⟩

/-! ## Level construction: a file that ends before the boxes section (C3) -/

/-- C3 (code evaluated at the failing input): the level file ends after the
back-platforms section, so the stream has no line for the count of the boxes
section.  `line_stream_next` returns `NULL` at the end of the stream and
`create_boxes_from_line_stream` hands that pointer to `sscanf` without a test.  The
construction, after six successful parsers, stops in a `NULL` dereference: it
returns neither `NULL` nor a level, although the boxes parser has failed to read
its section. -/
theorem create_level_truncated_before_boxes :
    (line_stream_next { stream := [], capacity := LEVEL_LINE_MAX_LENGTH }).1 = none ∧
      ∃ w',
        create_level_from_file (sample_env "bg\nplayer\npl\ngoals\nlava\nbp\n".toList)
            "level.txt" 0 (sample_world 4 []) = .error (Fault.null_dereference, w') ∧
          w'.log.filterMap Call.parsed =
            [Section.background, Section.player, Section.platforms, Section.goals,
             Section.lava, Section.back_platforms] ∧
          outcome_value
            (create_level_from_file (sample_env "bg\nplayer\npl\ngoals\nlava\nbp\n".toList)
              "level.txt" 0 (sample_world 4 [])) = none := by
  refine ⟨by decide, _, rfl, ?_, rfl⟩
  decide

/-! ## Rendering: layer order and failure (C4) -/

/-- One layer: if it fails the frame stops with `-1`, otherwise the rest decides. -/
theorem render_layer_outcome {E : Type} (s : Section) (x : Int × Store E) (w w0 : World E)
    (k : World E → Res E Int) (finished todo : List Section)
    (hw : w.log = w0.log ++ finished.map (fun s => Call.render s true))
    (hk : ∀ w' : World E,
      w'.log = w0.log ++ (finished ++ [s]).map (fun s => Call.render s true) →
        render_outcome (finished ++ [s]) todo w0 (k w')) :
    render_outcome finished (s :: todo) w0 (render_layer s x w k) := by
  unfold render_layer
  split
  · refine Or.inr ⟨[], s, todo, rfl, rfl, ?_⟩
    simp [hw]
  · rcases hk ((w.put x.2).call (Call.render s true)) (by simp [hw]) with h | h
    · refine Or.inl ⟨h.1, ?_⟩
      rw [h.2]
      simp
    · obtain ⟨before, s', after, h1, h2, h3⟩ := h
      refine Or.inr ⟨s :: before, s', after, by rw [h1]; rfl, h2, ?_⟩
      rw [h3]
      simp

/-- Function `boxes_render` on boxes whose count is within the capacity returns and
adds nothing to the log. -/
theorem boxes_render_ok {E : Type} (env : Env E) (b : Boxes) (camera : Nat)
    (h : b.count ≤ BOXES_CAPACITY) (w : World E) :
    ∃ r w', boxes_render env b camera w = .ok (r, w') ∧ w'.log = w.log :=
  boxes_render_loop_ok env b camera _ (range_in_bounds b h) w

/-- The frame as a whole, stated on the log. -/
theorem level_render_outcome {E : Type} (env : Env E) (level : Level) (camera : Nat)
    (w : World E) (hcount : level.boxes.count ≤ BOXES_CAPACITY) :
    render_outcome [] layer_order w (level_render env level camera w) := by
  unfold level_render layer_order
  refine render_layer_outcome _ _ _ _ _ _ _ (by simp) fun w1 h1 => ?_
  refine render_layer_outcome _ _ _ _ _ _ _ h1 fun w2 h2 => ?_
  refine render_layer_outcome _ _ _ _ _ _ _ h2 fun w3 h3 => ?_
  obtain ⟨r, w4, hb, h4⟩ := boxes_render_ok env level.boxes camera hcount w3
  rw [hb]
  dsimp only
  refine render_layer_outcome _ _ _ _ _ _ _ (h4.trans h3) fun w5 h5 => ?_
  refine render_layer_outcome _ _ _ _ _ _ _ h5 fun w6 h6 => ?_
  refine render_layer_outcome _ _ _ _ _ _ _ h6 fun w7 h7 => ?_
  refine render_layer_outcome _ _ _ _ _ _ _ h7 fun w8 h8 => ?_
  refine render_layer_outcome _ _ _ _ _ _ _ h8 fun w9 h9 => ?_
  refine render_layer_outcome _ _ _ _ _ _ _ h9 fun w10 h10 => ?_
  exact Or.inl ⟨rfl, by simpa using h10⟩

/-- The loop of `boxes_render` over indices inside the array draws the bodies of these
cells, in order, up to the first failure, and changes nothing else. -/
theorem boxes_render_loop_eq {E : Type} (env : Env E) (b : Boxes) (camera : Nat)
    (l : List Nat) (hl : ∀ i ∈ l, i < BOXES_CAPACITY) (w : World E) :
    boxes_render_loop env b camera l w =
      .ok ((render_bodies env camera (l.map b.body_ids) w.store).1,
        w.put (render_bodies env camera (l.map b.body_ids) w.store).2) := by
  induction l generalizing w with
  | nil => rfl
  | cons i rest ih =>
    unfold boxes_render_loop
    rw [read_ok b i w (hl i (List.mem_cons_self i rest))]
    dsimp only
    by_cases hneg : (env.rigid_bodies_render (b.body_ids i) camera w.store).1 < 0
    · rw [if_pos hneg]
      simp only [List.map_cons, render_bodies, if_pos hneg]
    · rw [if_neg hneg, ih (fun j hj => hl j (List.mem_cons_of_mem i hj))]
      simp only [List.map_cons, render_bodies, if_neg hneg, put_store]
      rfl

/-- One layer of the code is one layer of the frame. -/
theorem render_layer_eq {E : Type} (env : Env E) (level : Level) (camera : Nat) (s : Section)
    (rest : List Section) (x : Int × Store E) (w w0 : World E) (k : World E → Res E Int)
    (hx : x = layer_render env level camera s w0.store) (hw : w.put x.2 = w0.put x.2)
    (hk : ∀ w1, k w1 = .ok (render_layers env level camera rest w1)) :
    render_layer s x w k = .ok (render_layers env level camera (s :: rest) w0) := by
  unfold render_layer render_layers
  rw [hw, hk]
  subst hx
  split_ifs <;> rfl

/-- On a level whose box count is within the capacity, `level_render` is the frame
over the nine layers in the order of `layer_order`. -/
theorem level_render_eq {E : Type} (env : Env E) (level : Level) (camera : Nat)
    (w : World E) (hcount : level.boxes.count ≤ BOXES_CAPACITY) :
    level_render env level camera w = .ok (render_layers env level camera layer_order w) := by
  unfold level_render layer_order
  refine render_layer_eq env level camera _ _ _ _ _ _ rfl rfl fun w1 => ?_
  refine render_layer_eq env level camera _ _ _ _ _ _ rfl rfl fun w2 => ?_
  refine render_layer_eq env level camera _ _ _ _ _ _ rfl rfl fun w3 => ?_
  unfold boxes_render
  rw [boxes_render_loop_eq env level.boxes camera _ (range_in_bounds level.boxes hcount) w3]
  dsimp only
  refine render_layer_eq env level camera _ _ _ _ w3 _ rfl rfl fun w4 => ?_
  refine render_layer_eq env level camera _ _ _ _ _ _ rfl rfl fun w5 => ?_
  refine render_layer_eq env level camera _ _ _ _ _ _ rfl rfl fun w6 => ?_
  refine render_layer_eq env level camera _ _ _ _ _ _ rfl rfl fun w7 => ?_
  refine render_layer_eq env level camera _ _ _ _ _ _ rfl rfl fun w8 => ?_
  refine render_layer_eq env level camera _ _ _ _ _ _ rfl rfl fun w9 => ?_
  rfl

/-- A frame in which every layer succeeds draws all the layers and returns `0`. -/
theorem render_layers_all {E : Type} (env : Env E) (level : Level) (camera : Nat)
    (l : List Section) (w : World E)
    (h : ∀ before s after, l = before ++ s :: after →
      layer_succeeds env level camera w.store before s) :
    render_layers env level camera l w =
      (0, { store := layers_store env level camera l w.store
            log := w.log ++ l.map (fun s => Call.render s true)
            heap := w.heap
            rand := w.rand }) := by
  induction l generalizing w with
  | nil => simp [render_layers, layers_store]
  | cons x rest ih =>
    have hx : ¬ (layer_render env level camera x w.store).1 < 0 :=
      not_lt.mpr (h [] x rest rfl)
    unfold render_layers
    rw [if_neg hx, ih]
    · simp [layers_store, World.call, World.put]
    · intro before s after hl
      exact h (x :: before) s after (by rw [hl]; rfl)

/-- A frame whose first failing layer is `s` draws the layers before `s`, then `s`,
and returns `-1`. -/
theorem render_layers_fail {E : Type} (env : Env E) (level : Level) (camera : Nat)
    (before : List Section) (s : Section) (after : List Section) (w : World E)
    (hb : ∀ pre t post, before = pre ++ t :: post →
      layer_succeeds env level camera w.store pre t)
    (hs : ¬ layer_succeeds env level camera w.store before s) :
    render_layers env level camera (before ++ s :: after) w =
      (-1, { store := layers_store env level camera (before ++ [s]) w.store
             log := w.log ++ before.map (fun s => Call.render s true) ++ [Call.render s false]
             heap := w.heap
             rand := w.rand }) := by
  induction before generalizing w with
  | nil =>
    have hx : (layer_render env level camera s w.store).1 < 0 := not_le.mp hs
    simp only [List.nil_append, render_layers, if_pos hx]
    simp [layers_store, World.call, World.put]
  | cons x rest ih =>
    have hx : ¬ (layer_render env level camera x w.store).1 < 0 :=
      not_lt.mpr (hb [] x rest rfl)
    rw [List.cons_append]
    unfold render_layers
    rw [if_neg hx, ih]
    · simp [layers_store, World.call, World.put]
    · intro pre t post hl
      exact hb (x :: pre) t post (by rw [hl]; rfl)
    · exact hs

/-- A list of layers has a first failing layer, unless every layer succeeds. -/
theorem first_failing_layer {E : Type} (env : Env E) (level : Level) (camera : Nat)
    (l : List Section) (st : Store E) :
    (∀ before s after, l = before ++ s :: after →
        layer_succeeds env level camera st before s) ∨
      ∃ before s after, l = before ++ s :: after ∧
        (∀ pre t post, before = pre ++ t :: post →
          layer_succeeds env level camera st pre t) ∧
        ¬ layer_succeeds env level camera st before s := by
  induction l using List.reverseRecOn with
  | nil =>
    left
    intro before s after h
    cases before <;> cases h
  | append_singleton l x ih =>
    rcases ih with h | ⟨before, s, after, h1, h2, h3⟩
    · by_cases hx : layer_succeeds env level camera st l x
      · left
        intro before s after hl
        rcases List.eq_nil_or_concat after with ha | ⟨after1, y, ha⟩
        · subst ha
          obtain ⟨h4, h5⟩ := List.append_inj' (show l ++ [x] = before ++ [s] from hl) rfl
          cases h5
          rw [← h4]
          exact hx
        · subst ha
          have h6 : l ++ [x] = (before ++ s :: after1) ++ [y] := by
            rw [hl]
            simp
          obtain ⟨h4, -⟩ := List.append_inj' h6 rfl
          exact h before s after1 h4
      · right
        exact ⟨l, x, [], rfl, h, hx⟩
    · right
      refine ⟨before, s, after ++ [x], ?_, h2, h3⟩
      rw [h1]
      simp

/-- C4: on a level whose box count is within the capacity of `body_ids`,
`level_render` draws the layers in the order background, back-platforms, player,
boxes, lava, foreground platforms, goals, labels, regions, each renderer applied to
the object the level holds for the layer and to the store the layers before it
have left (`layer_render`; the boxes layer draws the bodies of the boxes one by
one).  It returns `0` exactly when every layer's render succeeds on the store it
is given; then all nine renderers have been applied and logged as successes.
Otherwise, at the first layer `s` whose render fails, the frame returns `-1`: the
renderers of the layers before `s` and of `s` have been applied, no later one, and
the log has the successes before `s` and the failure of `s`.  Heap and random
source are untouched. -/
theorem level_render_layers {E : Type} (env : Env E) (level : Level) (camera : Nat)
    (w : World E) (hcount : level.boxes.count ≤ BOXES_CAPACITY) :
    (outcome_value (level_render env level camera w) = some 0 ↔
        ∀ before s after, layer_order = before ++ s :: after →
          layer_succeeds env level camera w.store before s) ∧
      ((∀ before s after, layer_order = before ++ s :: after →
          layer_succeeds env level camera w.store before s) →
        level_render env level camera w =
          .ok (0, { store := layers_store env level camera layer_order w.store
                    log := w.log ++ layer_order.map (fun s => Call.render s true)
                    heap := w.heap
                    rand := w.rand })) ∧
      ∀ before s after, layer_order = before ++ s :: after →
        (∀ pre t post, before = pre ++ t :: post →
          layer_succeeds env level camera w.store pre t) →
        ¬ layer_succeeds env level camera w.store before s →
        level_render env level camera w =
          .ok (-1, { store := layers_store env level camera (before ++ [s]) w.store
                     log := w.log ++ before.map (fun s => Call.render s true) ++
                       [Call.render s false]
                     heap := w.heap
                     rand := w.rand }) := by
  rw [level_render_eq env level camera w hcount]
  refine ⟨⟨fun h0 => ?_, fun hall => ?_⟩, fun hall => ?_, fun before s after hl hb hs => ?_⟩
  · rcases first_failing_layer env level camera layer_order w.store with
      h | ⟨before, s, after, h1, h2, h3⟩
    · exact h
    · rw [h1, render_layers_fail env level camera before s after w h2 h3] at h0
      cases h0
  · rw [render_layers_all env level camera layer_order w hall]
    rfl
  · rw [render_layers_all env level camera layer_order w hall]
  · rw [hl, render_layers_fail env level camera before s after w hb hs]

/-- Witness of `level_render_layers`: every layer of `sample_level` succeeds. -/
theorem level_render_layers_witness :
    sample_level.boxes.count ≤ BOXES_CAPACITY ∧
      (outcome_value (level_render (sample_env []) sample_level 0 (sample_world 4 [])) =
          some 0 ↔
        ∀ before s after, layer_order = before ++ s :: after →
          layer_succeeds (sample_env []) sample_level 0 (sample_world 4 []).store before s) :=
  ⟨by decide,
   (level_render_layers (sample_env []) sample_level 0 (sample_world 4 []) (by decide)).1⟩

/-! ## Scripting dispatch: unknown targets (C5) -/

/-- A proper list is either `NIL` or a pair. -/
theorem list_nil_or_cons (args : List Expr) :
    Expr.list args = NIL ∨ ∃ x rest, Expr.list args = Expr.cons x rest := by
  cases args with
  | nil => exact Or.inl rfl
  | cons x xs => exact Or.inr ⟨x, Expr.list xs, rfl⟩

/-- The format `q*` matches a list that starts with a symbol and captures the
symbol and the rest of the list. -/
theorem match_list_target (target : String) (args : List Expr) :
    match_list "q*" (Expr.list (Expr.symbol target :: args)) =
      (eval_success NIL, [Expr.symbol target, Expr.list args]) := by
  have hf : "q*".toList = ['q', '*'] := by decide
  have hc : ∀ a b : Expr, ¬ Expr.cons a b = NIL := fun a b hab => by cases hab
  rcases list_nil_or_cons args with h | ⟨x, rest, h⟩
  · simp [match_list, hf, Expr.list, match_list_loop, hc, h, nil_p]
  · simp [match_list, hf, Expr.list, match_list_loop, hc, h, nil_p]

/-- C5: for a path whose first segment is a name other than `goal`, `label`, `box`,
`body-push`, `body-add` and `fly`, `level_send` returns the error
`UnknownTarget("level", name)` and leaves the level and the whole world (pool,
boxes, flying mode, log) as they were. -/
theorem level_send_unknown_target {E : Type} (env : Env E) (level : Level) (w : World E)
    (target : String) (args : List Expr)
    (h1 : target ≠ "goal") (h2 : target ≠ "label") (h3 : target ≠ "box")
    (h4 : target ≠ "body-push") (h5 : target ≠ "body-add") (h6 : target ≠ "fly") :
    level_send env level (Expr.list (Expr.symbol target :: args)) w =
      .ok ((unknown_target "level" target, level), w) := by
  simp [level_send, match_list_target, eval_success, capture_str, h1, h2, h3, h4, h5, h6]

/-- Witness of `level_send_unknown_target`: the path `(bogus)`. -/
theorem level_send_unknown_target_witness :
    level_send (sample_env []) sample_level (Expr.list [Expr.symbol "bogus"])
        (sample_world 4 []) =
      .ok ((unknown_target "level" "bogus", sample_level), sample_world 4 []) :=
  level_send_unknown_target (sample_env []) sample_level (sample_world 4 []) "bogus" []
    (by decide) (by decide) (by decide) (by decide) (by decide) (by decide)

/-! ## Scripting dispatch: spawning a box (C6) -/

set_option maxRecDepth 100000 in
/-- C6 (as stated, refuted), in two ways.  `sample_level` has no boxes, so its
count is below the capacity, but in a world whose pool has no free slot the
command `(box new 10 20 5 5)` does not return: the allocation in the pool fails.
And in a world whose pool is empty the command `(box new 16777217 0 1 1)` adds a
body whose hitbox starts at `16777216`: the conversion of the `long int`
`16777217` to `float` rounds it. -/
theorem box_new_fails_on_full_pool :
    sample_level.boxes.count < BOXES_CAPACITY ∧
      (∃ w', level_send (sample_env []) sample_level (box_new_path 10 20 5 5) full_world =
        .error (Fault.pool_exhausted, w')) ∧
      ∃ level' w',
        level_send (sample_env []) sample_level (box_new_path 16777217 0 1 1)
          (sample_world 4 []) = .ok ((eval_success NIL, level'), w') ∧
        w'.store.pool.live.map RigidBody.hitbox = [rect 16777216 0 1 1] ∧
        rect 16777216 0 1 1 ≠ rect ((16777217 : Int) : ℚ) 0 1 1 :=
  ⟨by decide, ⟨_, rfl⟩, _, _, rfl, by decide, by decide⟩

/-- An integer of magnitude at most `2 ^ 24` is a binary32 value: its conversion
to `float` is exact. -/
theorem long_to_float_exact (n : Int) (h : n.natAbs ≤ 2 ^ 24) : long_to_float n = n := by
  rcases Nat.lt_or_ge n.natAbs (2 ^ 24) with hlt | hge
  · have he : float_excess_bits 64 n.natAbs = 0 := by
      unfold float_excess_bits
      rw [if_pos hlt]
    have hc : ¬ (2 ^ 0 < 2 * (n.natAbs % 2 ^ 0) ∨
        (2 * (n.natAbs % 2 ^ 0) = 2 ^ 0 ∧ n.natAbs / 2 ^ 0 % 2 = 1)) := by
      simp [Nat.mod_one]
    unfold long_to_float
    simp only [he]
    rw [if_neg hc]
    simp only [pow_zero, Nat.div_one, Nat.mul_one]
    by_cases hn : n < 0
    · rw [if_pos hn]
      rw [← Int.cast_natCast, show ((n.natAbs : ℕ) : Int) = -n by omega, Int.cast_neg, neg_neg]
    · rw [if_neg hn]
      rw [← Int.cast_natCast, show ((n.natAbs : ℕ) : Int) = n by omega]
  · have hm : n.natAbs = 2 ^ 24 := Nat.le_antisymm h hge
    rcases Int.natAbs_eq n with hn | hn
    · rw [hn, hm]
      decide
    · rw [hn, hm]
      decide

/-- The slot found by `first_free` exists and is free. -/
theorem first_free_spec (l : List Slot) (k i : Nat) (h : first_free l k = some i) :
    k ≤ i ∧ ∃ s, l.get? (i - k) = some s ∧ s.body = none := by
  induction l generalizing k with
  | nil => simp [first_free] at h
  | cons a rest ih =>
    unfold first_free at h
    split at h
    · rename_i ha
      injection h with h
      subst h
      refine ⟨Nat.le_refl _, a, by simp, ?_⟩
      cases hb : a.body with
      | none => rfl
      | some b => simp [hb] at ha
    · obtain ⟨h1, s, h2, h3⟩ := ih (k + 1) h
      refine ⟨by omega, s, ?_, h3⟩
      have : i - k = (i - (k + 1)) + 1 := by omega
      rw [this]
      simpa using h2

/-- Filling a free slot adds one live body. -/
theorem live_length_set (l : List Slot) (i : Nat) (s v : Slot) (b : RigidBody)
    (h : l.get? i = some s) (hs : s.body = none) (hv : v.body = some b) :
    ((l.set i v).filterMap (fun s => s.body)).length =
      (l.filterMap (fun s => s.body)).length + 1 := by
  induction l generalizing i with
  | nil => simp at h
  | cons a rest ih =>
    cases i with
    | zero =>
      simp at h
      subst h
      simp [List.filterMap_cons, hs, hv]
    | succ j =>
      have := ih j (by simpa using h)
      cases ha : a.body with
      | none => simpa [List.filterMap_cons, ha] using this
      | some c => simpa [List.filterMap_cons, ha] using this

/-- What `rigid_bodies_add` does to a pool that has a free slot: it returns a
handle that was not live, the handle now refers to a body with the given hitbox
and colour, the number of live bodies grows by one and every other slot is
unchanged. -/
theorem rigid_bodies_add_spec (rb : RigidBodies) (r : Rect) (color : Color) (i : Nat)
    (hfree : first_free rb.slots 0 = some i) :
    ∃ id pool body, rigid_bodies_add rb r color = .ok (id, pool) ∧
      rb.lookup id = none ∧ pool.lookup id = some body ∧
      body.hitbox = r ∧ body.color = color ∧
      pool.live.length = rb.live.length + 1 ∧
      ∀ j, j ≠ id.index → pool.slots.get? j = rb.slots.get? j := by
  obtain ⟨_, s, hs, hb⟩ := first_free_spec rb.slots 0 i hfree
  simp only [Nat.sub_zero] at hs
  have hi : i < rb.slots.length := by
    rcases Nat.lt_or_ge i rb.slots.length with h | h
    · exact h
    · rw [List.get?_eq_none.mpr h] at hs
      cases hs
  refine ⟨{ index := i, generation := s.generation + 1 },
    { slots := rb.slots.set i
        { generation := s.generation + 1,
          body := some { position := vec r.x r.y, velocity := vec 0 0, size := vec r.w r.h,
                         color := color, grounded := false, force := vec 0 0 } } },
    { position := vec r.x r.y, velocity := vec 0 0, size := vec r.w r.h,
      color := color, grounded := false, force := vec 0 0 }, ?_, ?_, ?_, ?_, ?_, ?_, ?_⟩
  · simp only [rigid_bodies_add, hfree, hs]
  · have hs' : rb.slots[i]? = some s := by simpa using hs
    simp [RigidBodies.lookup, hs', hb]
  · simp [RigidBodies.lookup, hi]
  · simp [RigidBody.hitbox, vec, rect]
  · rfl
  · exact live_length_set rb.slots i s _ _ hs hb rfl
  · intro j hj
    simp at hj
    simp [List.getElem?_set_ne (Ne.symm hj)]
/-- The format `e*` captures the head of a list and its rest. -/
theorem match_list_head (x : Expr) (args : List Expr) :
    match_list "e*" (Expr.list (x :: args)) = (eval_success NIL, [x, Expr.list args]) := by
  have hf : "e*".toList = ['e', '*'] := by decide
  have hc : ∀ a b : Expr, ¬ Expr.cons a b = NIL := fun a b hab => by cases hab
  rcases list_nil_or_cons args with h | ⟨y, rest, h⟩
  · simp [match_list, hf, Expr.list, match_list_loop, hc, h, nil_p]
  · simp [match_list, hf, Expr.list, match_list_loop, hc, h, nil_p]

/-- The format `dddd*` matches four integers and captures them and the empty rest. -/
theorem match_list_four (x y w h : Int) :
    match_list "dddd*" (Expr.list [Expr.number x, Expr.number y, Expr.number w, Expr.number h]) =
      (eval_success NIL, [Expr.number x, Expr.number y, Expr.number w, Expr.number h, NIL]) := by
  have hf : "dddd*".toList = ['d', 'd', 'd', 'd', '*'] := by decide
  have hc : ∀ a b : Expr, ¬ Expr.cons a b = NIL := fun a b hab => by cases hab
  simp [match_list, hf, Expr.list, match_list_loop, hc, nil_p]

/-- The random source does not touch the store. -/
@[simp] theorem rand_float_store {E : Type} (w : World E) : (rand_float w).2.store = w.store := by
  unfold rand_float
  split <;> rfl

/-- Without a colour argument the colour of a new box is opaque, and choosing it
leaves the store alone. -/
theorem box_color_nil {E : Type} (env : Env E) (w : World E) :
    (box_color env NIL w).1.a = 1 ∧ (box_color env NIL w).2.store = w.store := by
  simp [box_color, nil_p, rgba]

/-- Writing the next cell of `body_ids` and counting it appends to the
registration list. -/
theorem ids_after_add (b : Boxes) (id : RigidBodyId) :
    Boxes.ids { b with body_ids := Function.update b.body_ids b.count id,
                       count := b.count + 1 } = b.ids ++ [id] := by
  simp only [Boxes.ids, List.range_succ, List.map_append, List.map_cons, List.map_nil,
    Function.update_same]
  congr 1
  apply List.map_congr_left
  intro j hj
  exact Function.update_noteq (Nat.ne_of_lt (List.mem_range.mp hj)) _ _

/-- C6 (amended): when the box count is below the box capacity and the pool has a
free slot, `level_send` with the path `(box new x y w h)` returns success, adds
exactly one body to the pool (a handle that was not live now refers to a body
whose hitbox is `(x, y, w, h)` converted to `float` and whose colour is opaque, the
number of live bodies grows by one and no other slot changes), appends the handle
of that body to the registration list and increments `boxes.count` by one.  The
hitbox is `(x, y, w, h)` itself when the four integers have a magnitude of at most
`2 ^ 24`, where the conversion to `float` is exact. -/
theorem box_new_adds_one_box {E : Type} (env : Env E) (level : Level) (w : World E)
    (x y bw bh : Int) (i : Nat) (hcount : level.boxes.count < BOXES_CAPACITY)
    (hfree : first_free w.store.pool.slots 0 = some i) :
    ∃ level' w' id body,
      level_send env level (box_new_path x y bw bh) w = .ok ((eval_success NIL, level'), w') ∧
      level'.boxes.count = level.boxes.count + 1 ∧
      level'.boxes.ids = level.boxes.ids ++ [id] ∧
      w.store.pool.lookup id = none ∧
      w'.store.pool.lookup id = some body ∧
      body.hitbox = rect (long_to_float x) (long_to_float y) (long_to_float bw)
        (long_to_float bh) ∧
      (x.natAbs ≤ 2 ^ 24 → y.natAbs ≤ 2 ^ 24 → bw.natAbs ≤ 2 ^ 24 → bh.natAbs ≤ 2 ^ 24 →
        body.hitbox = rect x y bw bh) ∧
      body.color.a = 1 ∧
      w'.store.pool.live.length = w.store.pool.live.length + 1 ∧
      ∀ j, j ≠ id.index → w'.store.pool.slots.get? j = w.store.pool.slots.get? j := by
  obtain ⟨ha, hs⟩ := box_color_nil env (w.call Call.boxes_send)
  rw [call_store] at hs
  obtain ⟨id, pool, body, h1, h2, h3, h4, h5, h6, h7⟩ :=
    rigid_bodies_add_spec w.store.pool
      (rect (long_to_float x) (long_to_float y) (long_to_float bw) (long_to_float bh))
      (box_color env NIL (w.call Call.boxes_send)).1 i hfree
  refine ⟨{ level with
      boxes := { level.boxes with
        body_ids := Function.update level.boxes.body_ids level.boxes.count id,
        count := level.boxes.count + 1 } },
    (box_color env NIL (w.call Call.boxes_send)).2.put
      { (box_color env NIL (w.call Call.boxes_send)).2.store with pool := pool },
    id, body, ?_, rfl, ids_after_add level.boxes id, h2, h3, h4, ?_, ?_, h6, h7⟩
  · simp only [level_send, box_new_path, match_list_target, eval_success, capture_str,
      capture_expr, List.get?]
    simp [boxes_send, match_list_head, match_list_four, eval_success, capture_expr, capture_int,
      boxes_add_box, hcount, hs, h1]
  · intro hx hy hw hh
    rw [h4, long_to_float_exact x hx, long_to_float_exact y hy, long_to_float_exact bw hw,
      long_to_float_exact bh hh]
  · rw [h5]
    exact ha

/-- Witness of `box_new_adds_one_box`: the command `(box new 10 20 5 5)` on
`sample_level` in a world whose pool of four slots is empty. -/
theorem box_new_adds_one_box_witness :
    sample_level.boxes.count < BOXES_CAPACITY ∧
      first_free (sample_world 4 []).store.pool.slots 0 = some 0 ∧
      ∃ level' w' id body,
        level_send (sample_env []) sample_level (box_new_path 10 20 5 5) (sample_world 4 []) =
          .ok ((eval_success NIL, level'), w') ∧
        level'.boxes.count = sample_level.boxes.count + 1 ∧
        level'.boxes.ids = sample_level.boxes.ids ++ [id] ∧
        (sample_world 4 []).store.pool.lookup id = none ∧
        w'.store.pool.lookup id = some body ∧
        body.hitbox = rect (long_to_float 10) (long_to_float 20) (long_to_float 5)
          (long_to_float 5) ∧
        ((10 : Int).natAbs ≤ 2 ^ 24 → (20 : Int).natAbs ≤ 2 ^ 24 → (5 : Int).natAbs ≤ 2 ^ 24 →
          (5 : Int).natAbs ≤ 2 ^ 24 →
          body.hitbox = rect (10 : Int) (20 : Int) (5 : Int) (5 : Int)) ∧
        body.color.a = 1 ∧
        w'.store.pool.live.length = (sample_world 4 []).store.pool.live.length + 1 ∧
        ∀ j, j ≠ id.index →
          w'.store.pool.slots.get? j = (sample_world 4 []).store.pool.slots.get? j :=
  ⟨by decide, by decide,
   box_new_adds_one_box (sample_env []) sample_level (sample_world 4 []) 10 20 5 5 0
     (by decide) (by decide)⟩

/-! ## Soft reload: the live player and the pool stay (C7) -/

/-- The code of `level_reload_preserve_player` is the soft reload section by
section. -/
theorem level_reload_eq {E : Type} (env : Env E) (level : Level) (broadcast : Nat)
    (w : World E) :
    level_reload_preserve_player env level broadcast w =
      reload_by_sections env level broadcast w := by
  generalize hr : level_reload_preserve_player env level broadcast w = r
  simp only [level_reload_preserve_player, reset_field, RESET_LT, return_int, RETURN_LT,
    destroy_resource, call_store, put_store, allocated_store,
    after_create_line_stream_store] at hr
  repeat' split at hr
  all_goals subst hr
  all_goals simp only [reload_by_sections, reload_finish, reload_sections, reload_section, swap_section,
    reload_start, file_order, call_store, put_store, allocated_store,
    after_create_line_stream_store, *]
  all_goals rfl

/-- The frame of `level_reload_preserve_player`, stated on the returned level and the
call log: the `player` and `rigid_bodies` fields are the ones of before, and neither
the destructor of the field `player` nor the one of the pool is called. -/
theorem reload_frame {E : Type} (env : Env E) (level : Level)
    (broadcast : Nat) (w : World E) (r : Res E (Int × Level))
    (hr : level_reload_preserve_player env level broadcast w = r) :
    (∀ ret level', outcome_value r = some (ret, level') →
        level'.player = level.player ∧ level'.rigid_bodies = level.rigid_bodies) ∧
      Call.destroy Section.player ∉ new_calls w r ∧
      Call.destroy_rigid_bodies ∉ new_calls w r := by
  simp only [level_reload_preserve_player, reset_field, RESET_LT, return_int, RETURN_LT,
    destroy_resource, call_store, put_store, allocated_store,
    after_create_line_stream_store] at hr
  repeat' split at hr
  all_goals subst hr
  all_goals try have hb := create_boxes_log _ _ _ _ _ ‹create_boxes_from_line_stream _ _ _ _ _ = _›
  all_goals try have hd := destroy_boxes_log _ _ ‹destroy_boxes _ _ = _›
  all_goals try simp only [outcome_world_ok, outcome_world_error, call_log, put_log,
      allocated_log, after_create_line_stream_log] at hb
  all_goals try simp only [outcome_world_ok, outcome_world_error, call_log, put_log,
      allocated_log, after_create_line_stream_log] at hd
  all_goals try simp only [hb] at hd
  all_goals simp only [new_calls, outcome_world_ok, outcome_world_error, call_log, put_log,
      allocated_log, after_create_line_stream_log, outcome_value_ok, outcome_value_error]
  all_goals try simp only [hd]
  all_goals try simp only [hb]
  all_goals simp

/-- C7: `level_reload_preserve_player` keeps the live player and the shared pool.
The call is the soft reload section by section (`reload_by_sections`), in which the
player section never touches the `player` field.  Whatever the outcome, a returned
level has the `player` and `rigid_bodies` fields it had before, and neither the
live player nor the pool is destroyed.  When the run reaches the player section
(the stream is open, the background section has succeeded and has left the level
`level1`, the stream at `ls1` and the world `w1`) and the player parser returns
an object `p`, then `level1` still holds the player of before, and the reload
goes on with the platforms section at the position the player parser has
reached, with the level `level1` unchanged and in the store left by
`destroy_player` applied to `p`, the player parsed from the file. -/
theorem reload_preserves_player_and_pool {E : Type} (env : Env E) (level : Level)
    (broadcast : Nat) (w : World E) :
    level_reload_preserve_player env level broadcast w =
        reload_by_sections env level broadcast w ∧
      (∀ ret level', outcome_value (level_reload_preserve_player env level broadcast w) =
          some (ret, level') →
        level'.player = level.player ∧ level'.rigid_bodies = level.rigid_bodies) ∧
      Call.destroy Section.player ∉
        new_calls w (level_reload_preserve_player env level broadcast w) ∧
      Call.destroy_rigid_bodies ∉
        new_calls w (level_reload_preserve_player env level broadcast w) ∧
      ∀ g ls0 level1 ls1 w1 p ls2 st,
        alloc w = some g →
        create_line_stream env level.file_name "r" LEVEL_LINE_MAX_LENGTH w.allocated =
          some ls0 →
        reload_sections env broadcast [Section.background] level ls0
          (reload_start env level w) = .ok ((none, level1, ls1), w1) →
        env.create_player_from_line_stream ls1 level.rigid_bodies broadcast w1.store =
          (some p, ls2, st) →
        level1.player = level.player ∧ level1.rigid_bodies = level.rigid_bodies ∧
          level_reload_preserve_player env level broadcast w =
            reload_finish
              (reload_sections env broadcast
                [Section.platforms, Section.goals, Section.lava, Section.back_platforms,
                 Section.boxes, Section.labels, Section.regions]
                level1 ls2
                { store := env.destroy_player p st
                  log := w1.log ++
                    [Call.parse Section.player true, Call.destroy_skipped_player p]
                  heap := w1.heap
                  rand := w1.rand }) := by
  obtain ⟨h1, h2, h3⟩ := reload_frame env level broadcast w _ rfl
  refine ⟨level_reload_eq env level broadcast w, h1, h2, h3, ?_⟩
  intro g ls0 level1 ls1 w1 p ls2 st ha hls hbg hp
  rw [level_reload_eq]
  simp only [reload_sections, reload_section, swap_section] at hbg
  split at hbg
  · cases hbg
  · cases hbg
  · rename_i lv lsx wx hsec
    cases hbg
    split at hsec
    · cases hsec
    · cases hsec
      simp only [call_store, put_store] at hp
      refine ⟨rfl, rfl, ?_⟩
      simp only [reload_by_sections, ha, hls, file_order]
      rw [reload_sections]
      simp only [reload_section, swap_section,
        ‹env.create_background_from_line_stream _ _ = _›]
      rw [reload_sections]
      simp only [reload_section, hp, call_store, put_store]
      congr 2
      simp [World.call, World.put]

/-- Witness of `reload_preserves_player_and_pool`: a reload of `sample_level` from a
complete file.  The background section leaves the handle `101` in the level, the
player parser returns the object `102`, and the reload goes on in the store left
by `destroy_player 102`. -/
theorem reload_preserves_player_and_pool_witness :
    ∃ ls1 w1 ls2 st,
      reload_sections (sample_env "bg\nplayer\npl\ngoals\nlava\nbp\n0\nlabels\nregions\n".toList)
          0 [Section.background] sample_level
          { stream := "bg\nplayer\npl\ngoals\nlava\nbp\n0\nlabels\nregions\n".toList,
            capacity := LEVEL_LINE_MAX_LENGTH }
          (reload_start
            (sample_env "bg\nplayer\npl\ngoals\nlava\nbp\n0\nlabels\nregions\n".toList)
            sample_level (sample_world 4 [])) =
        .ok ((none, { sample_level with background := 101 }, ls1), w1) ∧
      sample_section ls1 w1.store = (some 102, ls2, st) ∧
      level_reload_preserve_player
          (sample_env "bg\nplayer\npl\ngoals\nlava\nbp\n0\nlabels\nregions\n".toList)
          sample_level 0 (sample_world 4 []) =
        reload_finish
          (reload_sections
            (sample_env "bg\nplayer\npl\ngoals\nlava\nbp\n0\nlabels\nregions\n".toList) 0
            [Section.platforms, Section.goals, Section.lava, Section.back_platforms,
             Section.boxes, Section.labels, Section.regions]
            { sample_level with background := 101 } ls2
            { store :=
                (sample_env
                  "bg\nplayer\npl\ngoals\nlava\nbp\n0\nlabels\nregions\n".toList).destroy_player
                  102 st
              log := w1.log ++
                [Call.parse Section.player true, Call.destroy_skipped_player 102]
              heap := w1.heap
              rand := w1.rand }) :=
  ⟨_, _, _, _, rfl, rfl,
   ((reload_preserves_player_and_pool
      (sample_env "bg\nplayer\npl\ngoals\nlava\nbp\n0\nlabels\nregions\n".toList)
      sample_level 0 (sample_world 4 [])).2.2.2.2 0 _ _ _ _ 102 _ _ rfl rfl rfl rfl).2.2⟩

/-! ## Input: one command per call, keys before joystick (C8) -/

/-- C8: `level_input` returns `0` and gives the player exactly one command, the
one `input_decision` names: left when key A is pressed (also together with D),
otherwise right when key D is pressed, otherwise the sign of joystick axis 0
decides, otherwise stop.  When A or D is pressed the result does not depend on
the joystick. -/
theorem level_input_decision {E : Type} (env : Env E) (level : Level)
    (keyboard_state : Nat → Nat) (the_stick_of_joy : Option Nat) (w : World E) :
    level_input env level keyboard_state the_stick_of_joy w =
        .ok (0, (w.call
            ((input_decision (decide (keyboard_state SDL_SCANCODE_A ≠ 0))
              (decide (keyboard_state SDL_SCANCODE_D ≠ 0))
              (the_stick_of_joy.map fun stick =>
                env.SDL_JoystickGetAxis stick 0 w.store)).call level.player)).put
          ((input_decision (decide (keyboard_state SDL_SCANCODE_A ≠ 0))
              (decide (keyboard_state SDL_SCANCODE_D ≠ 0))
              (the_stick_of_joy.map fun stick =>
                env.SDL_JoystickGetAxis stick 0 w.store)).effect env level.player w.store)) ∧
      (keyboard_state SDL_SCANCODE_A ≠ 0 ∨ keyboard_state SDL_SCANCODE_D ≠ 0 →
        ∀ other_stick : Option Nat,
          level_input env level keyboard_state other_stick w =
            level_input env level keyboard_state the_stick_of_joy w) := by
  constructor
  · unfold level_input input_decision
    by_cases ha : keyboard_state SDL_SCANCODE_A = 0
    · by_cases hd : keyboard_state SDL_SCANCODE_D = 0
      · cases the_stick_of_joy with
        | none => simp [ha, hd, PlayerCommand.call, PlayerCommand.effect]
        | some stick =>
          by_cases h1 : env.SDL_JoystickGetAxis stick 0 w.store < 0
          · simp [ha, hd, h1, PlayerCommand.call, PlayerCommand.effect]
          · by_cases h2 : env.SDL_JoystickGetAxis stick 0 w.store > 0
            · simp [ha, hd, h1, h2, PlayerCommand.call, PlayerCommand.effect]
            · simp [ha, hd, h1, h2, PlayerCommand.call, PlayerCommand.effect]
      · simp [ha, hd, PlayerCommand.call, PlayerCommand.effect]
    · simp [ha, PlayerCommand.call, PlayerCommand.effect]
  · intro h other_stick
    unfold level_input
    by_cases ha : keyboard_state SDL_SCANCODE_A = 0
    · have hd : keyboard_state SDL_SCANCODE_D ≠ 0 := h.resolve_left (fun hn => hn ha)
      simp [ha, hd]
    · simp [ha]

/-- Witness of `level_input_decision`: with key A pressed, a joystick pushed to the
right (handle `20`, reading `10`) changes nothing. -/
theorem level_input_decision_witness :
    ((fun n => if n = SDL_SCANCODE_A then 1 else 0) SDL_SCANCODE_A ≠ 0 ∨
        (fun n => if n = SDL_SCANCODE_A then 1 else 0) SDL_SCANCODE_D ≠ 0) ∧
      level_input (sample_env []) sample_level (fun n => if n = SDL_SCANCODE_A then 1 else 0)
          (some 20) (sample_world 4 []) =
        level_input (sample_env []) sample_level (fun n => if n = SDL_SCANCODE_A then 1 else 0)
          none (sample_world 4 []) :=
  ⟨by decide,
   (level_input_decision (sample_env []) sample_level
     (fun n => if n = SDL_SCANCODE_A then 1 else 0) none (sample_world 4 [])).2
     (by decide) (some 20)⟩

/-! ## Flying camera: zoom floor and step (C9) -/

/-- A level returned by `create_level_from_file` has flying camera scale `1`. -/
theorem create_level_scale {E : Type} (env : Env E) (file_name : String) (broadcast : Nat)
    (w : World E) (level : Level)
    (h : outcome_value (create_level_from_file env file_name broadcast w) = some (some level)) :
    level.flying_camera_scale = 1 := by
  revert h
  generalize hr : create_level_from_file env file_name broadcast w = r
  simp only [create_level_from_file, return_null] at hr
  repeat' split at hr
  all_goals subst hr
  all_goals simp only [outcome_value_ok, outcome_value_error]
  all_goals intro h
  all_goals first
    | (injection h with h; injection h with h; subst h; rfl)
    | (injection h with h; cases h)
    | cases h

/-- The script command `(fly)` toggles the flying mode and leaves the camera alone. -/
theorem level_send_fly {E : Type} (env : Env E) (level : Level) (w : World E) :
    ∃ w', level_send env level (Expr.list [Expr.symbol "fly"]) w =
      .ok ((eval_success NIL, { level with flying_mode := !level.flying_mode }), w') := by
  refine ⟨(w.call (Call.SDL_SetRelativeMouseMode (!level.flying_mode))).put
    (env.SDL_SetRelativeMouseMode (!level.flying_mode) w.store), ?_⟩
  simp only [level_send, match_list_target, eval_success, capture_str, List.get?]
  simp

/-- One event keeps the flying camera scale at or above `1 / 10`. -/
theorem level_event_scale {E : Type} (env : Env E) (level : Level) (e : SDL_Event)
    (w : World E) (h : 1 / 10 ≤ level.flying_camera_scale) :
    ∃ level' w', level_event env level e w = .ok ((0, level'), w') ∧
      1 / 10 ≤ level'.flying_camera_scale := by
  cases e with
  | keydown sym =>
    simp only [level_event]
    split_ifs <;> exact ⟨_, _, rfl, h⟩
  | joybuttondown button =>
    simp only [level_event]
    split_ifs <;> exact ⟨_, _, rfl, h⟩
  | mousemotion xrel yrel =>
    simp only [level_event]
    split_ifs <;> exact ⟨_, _, rfl, h⟩
  | mousewheel y =>
    simp only [level_event]
    split_ifs
    · exact ⟨_, _, rfl, le_trans h (le_add_of_nonneg_right (by norm_num))⟩
    · exact ⟨_, _, rfl, le_max_left _ _⟩
    · exact ⟨_, _, rfl, h⟩
    · exact ⟨_, _, rfl, h⟩
  | other t => exact ⟨_, _, rfl, h⟩

/-- Any sequence of camera actions keeps the flying camera scale at or above `1 / 10`. -/
theorem camera_run_scale {E : Type} (env : Env E) (actions : List CameraAction)
    (level : Level) (w : World E) (h : 1 / 10 ≤ level.flying_camera_scale) :
    ∃ level' w', camera_run env actions level w = .ok (level', w') ∧
      1 / 10 ≤ level'.flying_camera_scale := by
  induction actions generalizing level w with
  | nil => exact ⟨level, w, rfl, h⟩
  | cons a rest ih =>
    unfold camera_run camera_step
    cases a with
    | event e =>
      obtain ⟨level1, w1, h1, h2⟩ := level_event_scale env level e w h
      simp only [h1]
      exact ih level1 w1 h2
    | fly_toggle =>
      obtain ⟨w1, h1⟩ := level_send_fly env level w
      simp only [h1]
      exact ih _ w1 h

/-- C9: the flying camera zoom has floor `1 / 10` and step `1 / 10`.  From a level
just returned by `create_level_from_file`, every sequence of `level_event` calls
and `(fly)` commands runs to the end and leaves `flying_camera_scale` at least
`1 / 10`.  While flying, a scroll up changes the scale `s` to `s + 1 / 10` and a
scroll down to `max (1 / 10) (s - 1 / 10)`.  While not flying, pointer motion and
scroll events leave the level, and with it camera position and scale, unchanged. -/
theorem flying_camera_zoom {E : Type} (env : Env E) (file_name : String) (broadcast : Nat)
    (w0 : World E) (level0 : Level)
    (hfresh : outcome_value (create_level_from_file env file_name broadcast w0) =
      some (some level0)) :
    (∀ (actions : List CameraAction) (w : World E),
        ∃ level' w', camera_run env actions level0 w = .ok (level', w') ∧
          1 / 10 ≤ level'.flying_camera_scale) ∧
      (∀ (level : Level) (w : World E) (y : Int), level.flying_mode = true →
        (y > 0 → level_event env level (SDL_Event.mousewheel y) w =
          .ok ((0, { level with flying_camera_scale := level.flying_camera_scale + 1 / 10 }),
            w)) ∧
        (y < 0 → level_event env level (SDL_Event.mousewheel y) w =
          .ok ((0, { level with
            flying_camera_scale := max (1 / 10) (level.flying_camera_scale - 1 / 10) }), w))) ∧
      (∀ (level : Level) (w : World E), level.flying_mode = false →
        (∀ xrel yrel, level_event env level (SDL_Event.mousemotion xrel yrel) w =
          .ok ((0, level), w)) ∧
        (∀ y, level_event env level (SDL_Event.mousewheel y) w = .ok ((0, level), w))) := by
  refine ⟨fun actions w => ?_, fun level w y hf => ⟨fun hy => ?_, fun hy => ?_⟩,
    fun level w hf => ⟨fun xrel yrel => ?_, fun y => ?_⟩⟩
  · have hs := create_level_scale env file_name broadcast w0 level0 hfresh
    exact camera_run_scale env actions level0 w (by rw [hs]; norm_num)
  · simp [level_event, hf, hy]
  · have hn : ¬ y > 0 := by omega
    simp [level_event, hf, hy, hn]
  · simp [level_event, hf]
  · simp [level_event, hf]

/-- Witness of `flying_camera_zoom`: a level built from a complete file, then the
flying mode switched on and the wheel scrolled down twelve times. -/
theorem flying_camera_zoom_witness :
    ∃ level0,
      outcome_value
          (create_level_from_file
            (sample_env "bg\nplayer\npl\ngoals\nlava\nbp\n0\nlabels\nregions\n".toList)
            "level.txt" 0 (sample_world 4 [])) = some (some level0) ∧
        ∃ level' w',
          camera_run (sample_env "bg\nplayer\npl\ngoals\nlava\nbp\n0\nlabels\nregions\n".toList)
              (CameraAction.fly_toggle ::
                List.replicate 12 (CameraAction.event (SDL_Event.mousewheel (-1))))
              level0 (sample_world 4 []) = .ok (level', w') ∧
            1 / 10 ≤ level'.flying_camera_scale :=
  ⟨_, rfl,
   (flying_camera_zoom
     (sample_env "bg\nplayer\npl\ngoals\nlava\nbp\n0\nlabels\nregions\n".toList)
     "level.txt" 0 (sample_world 4 []) _ rfl).1 _ _⟩

/-! ## Boxes section: an unparsable count (C10) -/

/-- C10 (code evaluated at the failing input): the count line `abc` is not a
number, yet `create_boxes_from_line_stream` does not return `NULL`.  `sscanf`
reports a matching failure (`0`), the code only tests for `EOF`, and the count
keeps the indeterminate contents of the fresh object, here `2`: two body records
are read from the stream, two bodies are added to the pool and a `Boxes` object
with count `2` is returned. -/
theorem create_boxes_unparsable_count :
    sscanf_lu "abc\n".toList = (0, none) ∧
      ∃ boxes line_stream w',
        create_boxes_from_line_stream (sample_env [])
            { stream := "abc\nrecord 1\nrecord 2\nlabels\n".toList, capacity := 512 } 2 3
            (heap_world [some 0, some 2]) = .ok ((some boxes, line_stream), w') ∧
          boxes.count = 2 ∧ line_stream.stream = "labels\n".toList ∧
          w'.store.pool.live.length = 2 := by
  refine ⟨by decide, _, _, _, rfl, ?_, ?_, ?_⟩
  · decide
  · decide
  · decide

/-! ## Box commands: a colour argument of the wrong type (C11) -/

/-- C11 (code evaluated at the failing input): the fifth argument of
`(new 1 2 3 4 5)` and the third argument of `(new-here 1 2 5)` are numbers, not
colour strings, and `match_list` with the format `s*` reports an error on them.
`boxes_send` stores that result without looking at it: it returns success, the
box count goes from `0` to `1` and the pool holds one more body. -/
theorem box_new_ignores_bad_colour :
    (match_list "s*" (Expr.list [Expr.number 5])).1.is_error = true ∧
      (∃ boxes' w',
        boxes_send (sample_env []) sample_level.boxes
            (Expr.list [Expr.symbol "new", Expr.number 1, Expr.number 2, Expr.number 3,
              Expr.number 4, Expr.number 5]) (sample_world 4 []) =
          .ok ((eval_success NIL, boxes'), w') ∧
        boxes'.count = sample_level.boxes.count + 1 ∧
        boxes'.ids.length = sample_level.boxes.ids.length + 1 ∧
        w'.store.pool.live.length = (sample_world 4 []).store.pool.live.length + 1) ∧
      ∃ boxes' w',
        boxes_send (sample_env []) sample_level.boxes
            (Expr.list [Expr.symbol "new-here", Expr.number 1, Expr.number 2, Expr.number 5])
            (sample_world 4 []) =
          .ok ((eval_success NIL, boxes'), w') ∧
        boxes'.count = sample_level.boxes.count + 1 ∧
        boxes'.ids.length = sample_level.boxes.ids.length + 1 ∧
        w'.store.pool.live.length = (sample_world 4 []).store.pool.live.length + 1 := by
  refine ⟨by decide, ⟨_, _, rfl, ?_, ?_, ?_⟩, ⟨_, _, rfl, ?_, ?_, ?_⟩⟩ <;> decide

/-! ## Line stream: long lines (C12) -/

/-- C12 (as stated, refuted): with a buffer of `4` bytes the first call on the file
`abcdef`, `cd` returns `abc`, and the following call returns the excess `def` of
the same line, not the next line; the two lines of the file take four successful
calls. -/
theorem long_line_is_not_truncated :
    (line_stream_next { stream := "abcdef\ncd\n".toList, capacity := 4 }).1 =
        some "abc".toList ∧
      (line_stream_next
          (line_stream_next { stream := "abcdef\ncd\n".toList, capacity := 4 }).2).1 =
        some "def".toList ∧
      read_all_lines 20 { stream := "abcdef\ncd\n".toList, capacity := 4 } =
        ["abc".toList, "def".toList, "\n".toList, "cd\n".toList] := by
  decide

/-- The inner loop of `fgets` loses no byte. -/
theorem fgets_read_append (n : Nat) (s : List Char) :
    (fgets_read n s).1 ++ (fgets_read n s).2 = s := by
  induction s generalizing n with
  | nil => cases n <;> rfl
  | cons c t ih =>
    cases n with
    | zero => rfl
    | succ m =>
      unfold fgets_read
      split
      · rfl
      · simp [ih m]

/-- The inner loop of `fgets` reads at most `n` bytes. -/
theorem fgets_read_length (n : Nat) (s : List Char) : (fgets_read n s).1.length ≤ n := by
  induction s generalizing n with
  | nil => cases n <;> simp [fgets_read]
  | cons c t ih =>
    cases n with
    | zero => simp [fgets_read]
    | succ m =>
      unfold fgets_read
      split
      · simp
      · simpa using ih m

/-- Without a newline among the first `n` bytes the inner loop of `fgets` reads
exactly these bytes. -/
theorem fgets_read_long (n : Nat) (s : List Char) (hn : n ≤ s.length)
    (hnl : '\n' ∉ s.take n) : fgets_read n s = (s.take n, s.drop n) := by
  induction s generalizing n with
  | nil => cases n <;> rfl
  | cons c t ih =>
    cases n with
    | zero => rfl
    | succ m =>
      have hc : ¬ c = '\n' := fun h => hnl (by simp [h])
      have ht : '\n' ∉ t.take m := fun h => hnl (by simp [h])
      unfold fgets_read
      rw [if_neg hc, ih m (by simpa using hn) ht]
      rfl

/-- A line that fits is read up to and including its newline. -/
theorem fgets_read_short (n : Nat) (l rest : List Char) (hl : l.length < n)
    (hnl : '\n' ∉ l) : fgets_read n (l ++ '\n' :: rest) = (l ++ ['\n'], rest) := by
  induction l generalizing n with
  | nil =>
    cases n with
    | zero => simp at hl
    | succ m => simp [fgets_read]
  | cons c t ih =>
    cases n with
    | zero => simp at hl
    | succ m =>
      have hc : ¬ c = '\n' := fun h => hnl (by simp [h])
      have ht : '\n' ∉ t := fun h => hnl (by simp [h])
      have h := ih m (by simpa using hl) ht
      rw [List.cons_append]
      unfold fgets_read
      rw [if_neg hc, h]
      rfl

/-- For a capacity between `2` and the largest `int`, `line_stream_next` is the inner
loop of `fgets` with `capacity - 1` bytes, and `NULL` exactly at the end of the
stream. -/
theorem line_stream_next_eq (ls : LineStream) (h2 : 2 ≤ ls.capacity)
    (h31 : ls.capacity < 2 ^ 31) :
    line_stream_next ls =
      (if ls.stream = [] then none else some (fgets_read (ls.capacity - 1) ls.stream).1,
       { ls with stream := if ls.stream = [] then []
                           else (fgets_read (ls.capacity - 1) ls.stream).2 }) := by
  have hm : ls.capacity % 2 ^ 32 = ls.capacity := Nat.mod_eq_of_lt (by omega)
  have hi : size_t_to_int ls.capacity = Int.ofNat ls.capacity := by
    unfold size_t_to_int
    rw [hm, if_pos h31]
  have h0 : ¬ Int.ofNat ls.capacity ≤ 0 := by
    simp only [Int.ofNat_eq_coe]
    omega
  have h1 : ¬ Int.ofNat ls.capacity = 1 := by
    simp only [Int.ofNat_eq_coe]
    omega
  unfold line_stream_next fgets
  rw [hi, if_neg h0, if_neg h1]
  cases hs : ls.stream with
  | nil => simp
  | cons c t => simp

/-- C12 (amended): on a stream with buffer capacity `L` between `2` and the largest
`int`, `line_stream_next` returns the end-of-stream sentinel exactly when no byte
is left; a successful call returns at most `L - 1` bytes and loses none (what it
returns followed by what is left is the stream before the call); a line that fits
is returned whole with its newline; and when the first `L - 1` bytes hold no
newline the call returns exactly these bytes and the excess of the line stays in
the stream, where the following calls deliver it. -/
theorem line_stream_next_splits_long_lines (ls : LineStream) (h2 : 2 ≤ ls.capacity)
    (h31 : ls.capacity < 2 ^ 31) :
    ((line_stream_next ls).1 = none ↔ ls.stream = []) ∧
      (∀ line, (line_stream_next ls).1 = some line →
        line.length ≤ ls.capacity - 1 ∧ line ++ (line_stream_next ls).2.stream = ls.stream) ∧
      (∀ l rest, ls.stream = l ++ '\n' :: rest → l.length < ls.capacity - 1 → '\n' ∉ l →
        line_stream_next ls = (some (l ++ ['\n']), { ls with stream := rest })) ∧
      (ls.stream ≠ [] → ls.capacity - 1 ≤ ls.stream.length →
        '\n' ∉ ls.stream.take (ls.capacity - 1) →
        line_stream_next ls =
          (some (ls.stream.take (ls.capacity - 1)),
           { ls with stream := ls.stream.drop (ls.capacity - 1) })) := by
  rw [line_stream_next_eq ls h2 h31]
  refine ⟨?_, ?_, ?_, ?_⟩
  · by_cases hs : ls.stream = [] <;> simp [hs]
  · intro line hline
    by_cases hs : ls.stream = []
    · simp [hs] at hline
    · simp only [hs, if_false, Option.some.injEq] at hline
      subst hline
      simp only [hs, if_false]
      exact ⟨fgets_read_length _ _, fgets_read_append _ _⟩
  · intro l rest hl hlen hnl
    have hs : ls.stream ≠ [] := by rw [hl]; simp
    simp only [hs, if_false]
    rw [hl, fgets_read_short _ l rest hlen hnl]
  · intro hs hlen hnl
    simp only [hs, if_false]
    rw [fgets_read_long _ _ hlen hnl]

/-- Witness of `line_stream_next_splits_long_lines`: the stream of
`long_line_is_not_truncated`. -/
theorem line_stream_next_splits_long_lines_witness :
    (2 ≤ (4 : Nat) ∧ (4 : Nat) < 2 ^ 31) ∧
      line_stream_next { stream := "abcdef\ncd\n".toList, capacity := 4 } =
        (some ("abcdef\ncd\n".toList.take 3),
         { stream := "abcdef\ncd\n".toList.drop 3, capacity := 4 }) :=
  ⟨by decide,
   (line_stream_next_splits_long_lines { stream := "abcdef\ncd\n".toList, capacity := 4 }
     (by decide) (by decide)).2.2.2 (by decide) (by decide) (by decide)⟩

/-! ## Boxes: the capacity of `body_ids` (C14) -/

@[simp] theorem outcome_fault_ok {E α : Type} (x : α × World E) :
    outcome_fault (Except.ok x : Res E α) = none := rfl

@[simp] theorem outcome_fault_error {E α : Type} (e : Fault × World E) :
    outcome_fault (Except.error e : Res E α) = some e.1 := rfl

/-- The only fault of `rigid_bodies_add` is an exhausted pool. -/
theorem rigid_bodies_add_fault {rb : RigidBodies} {r : Rect} {c : Color} {f : Fault}
    (h : rigid_bodies_add rb r c = .error f) : f = Fault.pool_exhausted := by
  unfold rigid_bodies_add at h
  repeat' split at h
  all_goals cases h
  all_goals rfl

/-- The creation loop writes inside the array as long as it stops at the capacity. -/
theorem create_boxes_loop_in_bounds {E : Type} (env : Env E) (n i : Nat)
    (ids : Nat → RigidBodyId) (ls : LineStream) (w : World E) (h : i + n ≤ BOXES_CAPACITY) :
    outcome_fault (create_boxes_loop env n i ids ls w) ≠ some Fault.out_of_bounds := by
  induction n generalizing i ids ls w with
  | zero => simp [create_boxes_loop]
  | succ n ih =>
    unfold create_boxes_loop rigid_bodies_add_from_line_stream
    split
    · rename_i e he
      split at he
      · rename_i f hf
        cases he
        rw [outcome_fault_error, rigid_bodies_add_fault hf]
        exact fun hc => by cases hc
      · cases he
    · rename_i id ls1 w1 he
      have hi : i < BOXES_CAPACITY := by omega
      rw [if_pos hi]
      exact ih _ _ _ _ (by omega)

/-- The creation loop started at index `0` with a count below the capacity writes
inside the array. -/
theorem create_boxes_loop_from_zero {E : Type} {env : Env E} {n : Nat}
    {ids : Nat → RigidBodyId} {ls : LineStream} {w : World E}
    {r : Res E ((Nat → RigidBodyId) × LineStream)} (h : n < BOXES_CAPACITY)
    (hr : create_boxes_loop env n 0 ids ls w = r) :
    outcome_fault r ≠ some Fault.out_of_bounds :=
  hr ▸ create_boxes_loop_in_bounds env n 0 ids ls w (by omega)

/-- Function `create_boxes_from_line_stream` never writes outside `body_ids`. -/
theorem create_boxes_in_bounds {E : Type} (env : Env E) (ls : LineStream) (rb p : Nat)
    (w : World E) :
    outcome_fault (create_boxes_from_line_stream env ls rb p w) ≠
      some Fault.out_of_bounds := by
  unfold create_boxes_from_line_stream
  dsimp only
  repeat' split
  all_goals first
    | (simp; done)
    | (have hlt := ‹count_after_sscanf _ _ < BOXES_CAPACITY›
       have hloop := ‹create_boxes_loop _ _ _ _ _ _ = _›
       have h := create_boxes_loop_from_zero hlt hloop
       simpa using h)

/-- Function `boxes_add_box` writes inside the array and leaves the count within the
capacity. -/
theorem boxes_add_box_capacity {E : Type} (b : Boxes) (r : Rect) (c : Color) (w : World E) :
    outcome_fault (boxes_add_box b r c w) ≠ some Fault.out_of_bounds ∧
      ∀ x b' w', boxes_add_box b r c w = .ok ((x, b'), w') → b'.count ≤ BOXES_CAPACITY := by
  unfold boxes_add_box
  split
  · rename_i hlt
    split
    · rename_i f hf
      refine ⟨?_, fun x b' w' hc => by cases hc⟩
      rw [outcome_fault_error, rigid_bodies_add_fault hf]
      exact fun hc => by cases hc
    · refine ⟨by simp, fun x b' w' hc => ?_⟩
      cases hc
      exact hlt
  · exact ⟨by simp, fun x b' w' hc => by cases hc⟩

/-- Equation form of `boxes_add_box_capacity`. -/
theorem boxes_add_box_capacity_eq {E : Type} {b : Boxes} {r : Rect} {c : Color} {w : World E}
    {res : Res E (Int × Boxes)} (hr : boxes_add_box b r c w = res) :
    outcome_fault res ≠ some Fault.out_of_bounds ∧
      ∀ x b' w', res = .ok ((x, b'), w') → b'.count ≤ BOXES_CAPACITY := by
  subst hr
  exact boxes_add_box_capacity b r c w

/-- Function `boxes_send` on boxes within the capacity writes inside the array and
leaves the count within the capacity. -/
theorem boxes_send_capacity {E : Type} (env : Env E) (b : Boxes) (path : Expr) (w : World E)
    (h : b.count ≤ BOXES_CAPACITY) :
    outcome_fault (boxes_send env b path w) ≠ some Fault.out_of_bounds ∧
      ∀ x b' w', boxes_send env b path w = .ok ((x, b'), w') → b'.count ≤ BOXES_CAPACITY := by
  unfold boxes_send
  dsimp only
  repeat' split
  all_goals first
    | exact ⟨by simp, fun x b' w' hc => by cases hc; exact h⟩
    | (have ha := ‹boxes_add_box _ _ _ _ = _›
       have hb := boxes_add_box_capacity_eq ha
       refine ⟨by first | (simp; done) | simpa using hb.1, fun x b' w' hc => ?_⟩
       cases hc <;> exact hb.2 _ _ _ rfl)

/-- A sequence of commands on boxes within the capacity writes inside the array and
leaves the count within the capacity. -/
theorem boxes_commands_capacity {E : Type} (env : Env E) (commands : List Expr) (b : Boxes)
    (w : World E) (h : b.count ≤ BOXES_CAPACITY) :
    outcome_fault (boxes_commands env commands b w) ≠ some Fault.out_of_bounds ∧
      ∀ b' w', boxes_commands env commands b w = .ok (b', w') → b'.count ≤ BOXES_CAPACITY := by
  induction commands generalizing b w with
  | nil =>
    refine ⟨by simp [boxes_commands], fun b' w' hc => ?_⟩
    cases hc
    exact h
  | cons path rest ih =>
    have hs := boxes_send_capacity env b path w h
    unfold boxes_commands
    split
    · rename_i e he
      rw [he] at hs
      exact ⟨by simpa using hs.1, fun b' w' hc => by cases hc⟩
    · rename_i x b1 w1 he
      exact ih b1 w1 (hs.2 _ _ _ he)

/-- The loops over `body_ids` of boxes within the capacity read inside the array. -/
theorem boxes_reads_in_bounds {E : Type} (env : Env E) (b : Boxes)
    (h : b.count ≤ BOXES_CAPACITY) (camera lava : Nat) (dt : ℚ) (w : World E) :
    outcome_fault (boxes_render env b camera w) ≠ some Fault.out_of_bounds ∧
      outcome_fault (boxes_update env b dt w) ≠ some Fault.out_of_bounds ∧
      outcome_fault (boxes_float_in_lava env b lava w) ≠ some Fault.out_of_bounds ∧
      outcome_fault (destroy_boxes b w) ≠ some Fault.out_of_bounds := by
  refine ⟨?_, ?_, ?_, ?_⟩
  · obtain ⟨r, w', hr, _⟩ := boxes_render_loop_ok env b camera _ (range_in_bounds b h) w
    unfold boxes_render
    rw [hr]
    simp
  · unfold boxes_update
    split
    · simp
    · obtain ⟨r, w', hr, _⟩ := boxes_update_loop_ok env b dt _ (range_in_bounds b h) w
      rw [hr]
      simp
  · obtain ⟨w', hr, _⟩ := boxes_float_in_lava_loop_ok env b lava _ (range_in_bounds b h) w
    unfold boxes_float_in_lava
    rw [hr]
    simp
  · obtain ⟨w', hr⟩ := destroy_boxes_loop_ok b _ (range_in_bounds b h) w
    unfold destroy_boxes
    rw [hr]
    simp

/-- C14: the capacity invariant of `Boxes`.  The capacity of `body_ids` is `1000`,
and no run of `create_boxes_from_line_stream` writes outside the array.  For boxes
returned by `create_boxes_from_line_stream` (their parsed count has passed the
assertion `count < BOXES_CAPACITY`) the count is below the capacity, and for every
sequence of commands sent to them with `boxes_send`, from any world: no command
writes outside the array; when the sequence returns (no capacity assertion and no
other fault stops it), the count of the resulting boxes is at most `1000` and the
loops of `boxes_render`, `boxes_update`, `boxes_float_in_lava` and `destroy_boxes`
read inside the array.  A spawn on boxes whose count is `1000` stops at the
assertion of `boxes_add_box` with the world unchanged: nothing is written. -/
theorem boxes_capacity_invariant {E : Type} (env : Env E) (line_stream line_stream1 : LineStream)
    (rigid_bodies player : Nat) (w w1 : World E) (boxes : Boxes)
    (hcreate : create_boxes_from_line_stream env line_stream rigid_bodies player w =
      .ok ((some boxes, line_stream1), w1))
    (commands : List Expr) (w2 : World E) :
    BOXES_CAPACITY = 1000 ∧
      (∀ (ls : LineStream) (rb p : Nat) (w0 : World E),
        outcome_fault (create_boxes_from_line_stream env ls rb p w0) ≠
          some Fault.out_of_bounds) ∧
      boxes.count < 1000 ∧
      outcome_fault (boxes_commands env commands boxes w2) ≠ some Fault.out_of_bounds ∧
      (∀ boxes1 w3, boxes_commands env commands boxes w2 = .ok (boxes1, w3) →
        boxes1.count ≤ 1000 ∧
        ∀ (camera lava : Nat) (dt : ℚ) (w4 : World E),
          outcome_fault (boxes_render env boxes1 camera w4) ≠ some Fault.out_of_bounds ∧
          outcome_fault (boxes_update env boxes1 dt w4) ≠ some Fault.out_of_bounds ∧
          outcome_fault (boxes_float_in_lava env boxes1 lava w4) ≠
            some Fault.out_of_bounds ∧
          outcome_fault (destroy_boxes boxes1 w4) ≠ some Fault.out_of_bounds) ∧
      ∀ (full : Boxes) (r : Rect) (c : Color) (w5 : World E), full.count = 1000 →
        boxes_add_box full r c w5 = .error (Fault.assertion_failed, w5) := by
  have hlt : boxes.count < BOXES_CAPACITY := create_boxes_count hcreate
  have hcap := boxes_commands_capacity env commands boxes w2 (Nat.le_of_lt hlt)
  refine ⟨rfl, fun ls rb p w0 => create_boxes_in_bounds env ls rb p w0, hlt, hcap.1,
    fun boxes1 w3 h => ⟨hcap.2 boxes1 w3 h, fun camera lava dt w4 =>
      boxes_reads_in_bounds env boxes1 (hcap.2 boxes1 w3 h) camera lava dt w4⟩,
    fun full r c w5 h => ?_⟩
  unfold boxes_add_box
  rw [if_neg (by rw [h]; decide)]

/-- Witness of `boxes_capacity_invariant`: boxes with two bodies read from a stream,
then sent one `new` and one `new-here` command. -/
theorem boxes_capacity_invariant_witness :
    ∃ boxes line_stream1 w1,
      create_boxes_from_line_stream (sample_env [])
          { stream := "2\nrecord 1\nrecord 2\nlabels\n".toList, capacity := 512 } 2 3
          (sample_world 8 []) = .ok ((some boxes, line_stream1), w1) ∧
        boxes.count = 2 ∧
        (∃ boxes1 w3,
          boxes_commands (sample_env [])
              [Expr.list [Expr.symbol "new", Expr.number 1, Expr.number 2, Expr.number 3,
                 Expr.number 4],
               Expr.list [Expr.symbol "new-here", Expr.number 3, Expr.number 4]]
              boxes w1 = .ok (boxes1, w3) ∧ boxes1.count = 4) ∧
        outcome_fault
          (boxes_commands (sample_env [])
              [Expr.list [Expr.symbol "new", Expr.number 1, Expr.number 2, Expr.number 3,
                 Expr.number 4],
               Expr.list [Expr.symbol "new-here", Expr.number 3, Expr.number 4]]
              boxes w1) ≠ some Fault.out_of_bounds :=
  ⟨_, _, _, rfl, by decide, ⟨_, _, rfl, by decide⟩,
   (boxes_capacity_invariant (sample_env [])
     { stream := "2\nrecord 1\nrecord 2\nlabels\n".toList, capacity := 512 } _ 2 3
     (sample_world 8 []) _ _ rfl _ _).2.2.2.1⟩

/-! ## Soft reload after a successful construction (C13) -/

@[simp] theorem call_heap {E : Type} (w : World E) (c : Call) : (w.call c).heap = w.heap := rfl

@[simp] theorem put_heap {E : Type} (w : World E) (s : Store E) : (w.put s).heap = w.heap := rfl

@[simp] theorem allocated_heap {E : Type} (w : World E) : w.allocated.heap = w.heap.tail := rfl

/-- With an empty list of coming outcomes every allocation succeeds and the fresh
memory holds zeros. -/
theorem alloc_of_nil {E : Type} {w : World E} (h : w.heap = []) : alloc w = some 0 := by
  unfold alloc
  rw [h]

/-- Allocating leaves an empty list of coming outcomes empty. -/
theorem allocated_heap_nil {E : Type} {w : World E} (h : w.heap = []) :
    w.allocated.heap = [] := by
  rw [allocated_heap, h]
  rfl

/-- Two runs of the loop of `create_boxes_from_line_stream` over the same stream
with the same count: when the first returns, the second returns with the stream at
the same position or stops at a full pool. -/
theorem create_boxes_loop_same_stream {E : Type} (env : Env E) (n i j : Nat)
    (ids ids1 ids2 : Nat → RigidBodyId) (ls ls1 : LineStream) (w w1 v : World E)
    (hj : j + n ≤ BOXES_CAPACITY)
    (h : create_boxes_loop env n i ids ls w = .ok ((ids1, ls1), w1)) :
    outcome_fault (create_boxes_loop env n j ids2 ls v) = some Fault.pool_exhausted ∨
      ∃ ids3 v1, create_boxes_loop env n j ids2 ls v = .ok ((ids3, ls1), v1) ∧
        v1.heap = v.heap := by
  induction n generalizing i j ids ids2 ls w v with
  | zero =>
    unfold create_boxes_loop at h
    cases h
    exact Or.inr ⟨ids2, v, rfl, rfl⟩
  | succ n ih =>
    unfold create_boxes_loop rigid_bodies_add_from_line_stream at h
    unfold create_boxes_loop rigid_bodies_add_from_line_stream
    have hjlt : j < BOXES_CAPACITY := by omega
    split at h
    · cases h
    · rename_i id0 lsa wa ha
      split at ha
      · cases ha
      · cases ha
        split at h
        · split
          · rename_i e he
            split at he
            · rename_i f hf
              cases he
              exact Or.inl (by rw [outcome_fault_error, rigid_bodies_add_fault hf])
            · cases he
          · rename_i idb lsb wb hb
            split at hb
            · cases hb
            · cases hb
              rw [if_pos hjlt]
              obtain h1 | ⟨ids3, v1, h1, h2⟩ := ih _ (j + 1) _ _ _ _ _ (by omega) h
              · exact Or.inl h1
              · exact Or.inr ⟨ids3, v1, h1, by rw [h2]; rfl⟩
        · cases h

/-- Two runs of `create_boxes_from_line_stream` at the same stream position, in
worlds where every allocation succeeds and fresh memory holds zeros: when the
first returns boxes, the second returns boxes with the stream at the same position
or stops at a full pool. -/
theorem create_boxes_same_stream {E : Type} (env : Env E) (ls ls1 : LineStream)
    (rb p rb1 p1 : Nat) (w w1 v : World E) (b : Boxes) (hw : w.heap = []) (hv : v.heap = [])
    (h : create_boxes_from_line_stream env ls rb p w = .ok ((some b, ls1), w1)) :
    outcome_fault (create_boxes_from_line_stream env ls rb1 p1 v) =
        some Fault.pool_exhausted ∨
      ∃ b1 v1, create_boxes_from_line_stream env ls rb1 p1 v = .ok ((some b1, ls1), v1) := by
  unfold create_boxes_from_line_stream at h
  unfold create_boxes_from_line_stream
  have a1 := alloc_of_nil hw
  have a2 := alloc_of_nil (allocated_heap_nil hw)
  have a3 := alloc_of_nil (allocated_heap_nil (allocated_heap_nil hw))
  have b1 := alloc_of_nil hv
  have b2 := alloc_of_nil (allocated_heap_nil hv)
  have b3 := alloc_of_nil (allocated_heap_nil (allocated_heap_nil hv))
  simp only [a1, a2, a3] at h
  simp only [b1, b2, b3]
  split at h
  · cases h
  · rename_i line hline
    split at h
    · cases h
    · rename_i hEOF
      rw [if_neg hEOF]
      split at h
      · rename_i hlt
        rw [if_pos hlt]
        split at h
        · cases h
        · rename_i ids1 lsa wa hloop
          cases h
          obtain h1 | ⟨ids3, v1, h1, -⟩ := create_boxes_loop_same_stream env _ 0 0 _ _
            (fun _ => { index := 0, generation := 0 }) _ _ _ _
            v.allocated.allocated.allocated (by omega) hloop
          · left
            revert h1
            generalize create_boxes_loop env _ 0 _ _ v.allocated.allocated.allocated = r
            intro h1
            cases r with
            | error e => exact h1
            | ok x => cases h1
          · right
            rw [h1]
            exact ⟨_, _, rfl⟩
      · cases h

/-! ### A level with six hundred boxes cannot be reloaded -/

/-- When a slot is free there are fewer live bodies than slots. -/
theorem first_free_some (l : List Slot) (k i : Nat) (h : first_free l k = some i) :
    (l.filterMap fun s => s.body).length < l.length := by
  induction l generalizing k with
  | nil => simp [first_free] at h
  | cons a rest ih =>
    unfold first_free at h
    split at h
    · rename_i ha
      cases hb : a.body with
      | none =>
        have := List.length_filterMap_le (fun s : Slot => s.body) rest
        simp only [List.filterMap_cons, hb, List.length_cons]
        omega
      | some b => simp [hb] at ha
    · have := ih (k + 1) h
      cases hb : a.body with
      | none =>
        simp only [List.filterMap_cons, hb, List.length_cons]
        omega
      | some b =>
        simp only [List.filterMap_cons, hb, List.length_cons]
        omega

/-- Function `rigid_bodies_add` fails on a pool without a free slot. -/
theorem rigid_bodies_add_full (rb : RigidBodies) (r : Rect) (c : Color)
    (h : rb.slots.length ≤ rb.live.length) :
    rigid_bodies_add rb r c = .error Fault.pool_exhausted := by
  cases hf : first_free rb.slots 0 with
  | none => simp [rigid_bodies_add, hf]
  | some i =>
    have := first_free_some rb.slots 0 i hf
    unfold RigidBodies.live at h
    omega

/-- A parser that is `stream_determined` succeeds wherever it has succeeded at the
same stream position, and leaves the stream at the same position. -/
theorem parsed_by_determined {E : Type}
    {p q : LineStream → Store E → Option Nat × LineStream × Store E}
    (h : stream_determined p q) {ls ls1 : LineStream} {v : Nat} (hp : parsed_by p ls ls1 v)
    {st st1 : Store E} {a : Option Nat} {l : LineStream} (hq : q ls st = (a, l, st1)) :
    a.isSome = true ∧ ls1 = l := by
  obtain ⟨st0, st2, hp⟩ := hp
  have h1 := h ls st0 st
  rw [hp, hq] at h1
  exact ⟨h1.1.symm, h1.2⟩

end See
